import Mathlib

/-!
Formal model of the healthcare-claims validator in `src/Health_system.py`.

The validation core (field extraction, Luhn checksum, flexible date parsing,
per-record rule evaluation, and the batch partition loop of `main`) is
shallowly embedded as executable Lean definitions.  Python operations that can
raise exceptions are modelled with `Option` (`none` = an exception escapes);
everything else is a pure total function, mirroring the Python source line by
line.  Strings are modelled over ASCII (the Python `str.isdigit`,
`str.isalpha`, `re` digit classes also accept non-ASCII code points, which
never occur in the data handled here).
-/

namespace HealthSystem

/-!
Python string primitives used by the source.
-/

/-- Python `str.strip()` (without arguments): remove leading and trailing
whitespace. -/
def pyStrip (s : String) : String :=
  ⟨((s.data.dropWhile Char.isWhitespace).reverse.dropWhile Char.isWhitespace).reverse⟩

/-- Python `str.replace(" ", "")`: remove every space character (and only
spaces; other whitespace is kept). -/
def removeSpaces (s : String) : String :=
  ⟨s.data.filter (fun c => c != ' ')⟩

/-- Python `x or y` on an optional string `x` (as produced by `dict.get`):
`None` and the empty string are falsy and fall through to `y`. -/
def pyOr (a : Option String) (b : String) : String :=
  match a with
  | none => b
  | some s => if s = "" then b else s

/-- Python `str.isdigit()`: non-empty and every character is a digit. -/
def pyIsDigit (s : String) : Bool :=
  !s.isEmpty && s.data.all Char.isDigit

/-- Python `str.isalpha()`: non-empty and every character is a letter. -/
def pyIsAlpha (s : String) : Bool :=
  !s.isEmpty && s.data.all Char.isAlpha

/-- Python `str.isupper()`: at least one cased character, and no cased
character is lowercase. -/
def pyIsUpper (s : String) : Bool :=
  s.data.any (fun c => c.isUpper || c.isLower) && s.data.all (fun c => !c.isLower)

/-- Numeric value of a digit character, `int(d)` on a single digit. -/
def dval (c : Char) : Nat := c.toNat - 48

/-!
Calendar model: Python `datetime.date`.  A `date` object always satisfies
`isValidDate`; the constructor rejects anything else.  Ordinals follow
CPython's `_ymd2ord` (day 1 = 0001-01-01 in the proleptic Gregorian
calendar).
-/

/-- A (possibly not yet validated) year/month/day triple. -/
structure Date where
  year : Nat
  month : Nat
  day : Nat
deriving DecidableEq, Repr

/-- Gregorian leap-year test, as in CPython `_is_leap`. -/
def isLeap (y : Nat) : Bool :=
  y % 4 == 0 && (y % 100 != 0 || y % 400 == 0)

/-- Number of days in a month, as in CPython `_days_in_month`. -/
def daysInMonth (y m : Nat) : Nat :=
  if m = 2 then (if isLeap y then 29 else 28)
  else if m = 4 ∨ m = 6 ∨ m = 9 ∨ m = 11 then 30
  else 31

/-- Days in the year before the first of month `m`, as in CPython
`_days_before_month` (extended with `m = 13` denoting the end of the year,
for stating cumulative-sum lemmas; the source only uses `1 ≤ m ≤ 12`). -/
def daysBeforeMonth (y m : Nat) : Nat :=
  (match m with
   | 1 => 0 | 2 => 31 | 3 => 59 | 4 => 90 | 5 => 120 | 6 => 151
   | 7 => 181 | 8 => 212 | 9 => 243 | 10 => 273 | 11 => 304 | 12 => 334
   | 13 => 365 | _ => 0)
  + (if 3 ≤ m ∧ m ≤ 13 ∧ isLeap y then 1 else 0)

/-- Number of days in a year. -/
def daysInYear (y : Nat) : Nat := if isLeap y then 366 else 365

/-- Days before January 1 of year `y`, as in CPython `_days_before_year`. -/
def daysBeforeYear (y : Nat) : Nat :=
  365 * (y - 1) + (y - 1) / 4 - (y - 1) / 100 + (y - 1) / 400

/-- CPython `date.toordinal()` (`_ymd2ord`). -/
def Date.toOrdinal (d : Date) : Nat :=
  daysBeforeYear d.year + daysBeforeMonth d.year d.month + d.day

/-- The validity invariant of a Python `date` object: exactly the checks of
the `datetime.date` constructor. -/
def isValidDate (d : Date) : Bool :=
  decide (1 ≤ d.year ∧ d.year ≤ 9999 ∧ 1 ≤ d.month ∧ d.month ≤ 12 ∧
          1 ≤ d.day ∧ d.day ≤ daysInMonth d.year d.month)

/-- Python `date` comparison `a < b`: lexicographic on
(year, month, day), as in CPython `date._cmp`. -/
def Date.pyLt (a b : Date) : Bool :=
  decide (a.year < b.year ∨ (a.year = b.year ∧
    (a.month < b.month ∨ (a.month = b.month ∧ a.day < b.day))))

/-- Largest valid ordinal, `date.max.toordinal()` = ordinal of 9999-12-31. -/
def maxOrdinal : Nat := 3652059

/-- The year containing ordinal day `n` (`n ≥ 1`): an estimate from the
400-year cycle length 146097, corrected by at most one year in either
direction. -/
def yearOf (n : Nat) : Nat :=
  let y0 := 400 * (n - 1) / 146097 + 1
  if n ≤ daysBeforeYear y0 then y0 - 1
  else if daysBeforeYear (y0 + 1) < n then y0 + 1
  else y0

/-- The month of year `y` containing day-of-year `r` (1-based,
`1 ≤ r ≤ daysInYear y`). -/
def monthOf (y r : Nat) : Nat :=
  if r ≤ daysBeforeMonth y 2 then 1
  else if r ≤ daysBeforeMonth y 3 then 2
  else if r ≤ daysBeforeMonth y 4 then 3
  else if r ≤ daysBeforeMonth y 5 then 4
  else if r ≤ daysBeforeMonth y 6 then 5
  else if r ≤ daysBeforeMonth y 7 then 6
  else if r ≤ daysBeforeMonth y 8 then 7
  else if r ≤ daysBeforeMonth y 9 then 8
  else if r ≤ daysBeforeMonth y 10 then 9
  else if r ≤ daysBeforeMonth y 11 then 10
  else if r ≤ daysBeforeMonth y 12 then 11
  else 12

/-- CPython `date.fromordinal` (`_ord2ymd`), for `1 ≤ n ≤ maxOrdinal`. -/
def fromOrdinal (n : Nat) : Date :=
  let y := yearOf n
  let r := n - daysBeforeYear y
  let m := monthOf y r
  ⟨y, m, r - daysBeforeMonth y m⟩

/-- Python `d - timedelta(days = k)`: computed through ordinals, raising
`OverflowError` (modelled by `none`) when the result leaves the ordinal
range `1 ..= maxOrdinal`, as in CPython `date.__add__`. -/
def Date.subDays (d : Date) (days : Nat) : Option Date :=
  let o : Int := (d.toOrdinal : Int) - (days : Int)
  if 0 < o ∧ o ≤ (maxOrdinal : Int) then some (fromOrdinal o.toNat) else none

/-- Python `date.isoformat()`: zero-padded `YYYY-MM-DD`. -/
def padZero (w n : Nat) : String :=
  let s := toString n
  ⟨List.replicate (w - s.length) '0'⟩ ++ s

/-- Python `date.isoformat()`. -/
def Date.isoformat (d : Date) : String :=
  padZero 4 d.year ++ "-" ++ padZero 2 d.month ++ "-" ++ padZero 2 d.day

/-!
The checksum function `luhn_check` (Health_system.py lines 33-61).  The only fallible step is
`digits[-1]`, which would raise `IndexError` on an empty list; it is modelled
by `Option`, with `none` standing for the exception.
-/

/-- The accumulation loop of `luhn_check`: `for i, d in enumerate(digits)`,
doubling the digits at even indices (subtracting 9 when the double
exceeds 9). -/
def luhnSum : Nat → List Nat → Nat
  | _, [] => 0
  | i, d :: rest =>
    (if i % 2 = 0 then (if 9 < 2 * d then 2 * d - 9 else 2 * d) else d)
      + luhnSum (i + 1) rest

/-- `luhn_check` from the source: `False` on non-digit input, otherwise the
MOD-10 test with the trailing digit as check digit. -/
def luhn_check (number : String) : Option Bool :=
  if !pyIsDigit number then some false
  else
    let digits := number.data.map dval
    match digits.getLast? with
    | none => none
    | some check_digit =>
      let rest := digits.dropLast.reverse
      some (decide ((luhnSum 0 rest + check_digit) % 10 = 0))

/-!
The date parser `parse_date_flex` (lines 64-109).  `datetime.strptime(s, fmt).date()` is
modelled as CPython `_strptime` does it: the format is compiled to a regex,
`regex.match` finds the first full-pattern match in backtracking priority
order, the match must reach the end of the string, and the `date` constructor
must accept the extracted numbers.  For the five formats used here the regex
fragments are (from CPython `_strptime.TimeRE`):
  `%Y` = `\dddd` (exactly four digits),
  `%m` = `1[0-2]|0[1-9]|[1-9]`,
  `%d` = `3[0-1]|[1-2]\d|0[1-9]|[1-9]| [1-9]`.
Each token is modelled as the list of its possible (value, remaining input)
outcomes in the regex's alternation order; sequencing by `List.bind` then
enumerates whole-pattern matches in exactly the regex engine's backtracking
order, and `head?` picks the one `re.match` returns.
-/

/-- Outcomes of matching one numeric token: value and remaining input, in
regex priority order. -/
abbrev Cand := Nat × List Char

/-- The `%Y` token: exactly four digits. -/
def matchY : List Char → List Cand
  | a :: b :: c :: d :: rest =>
    if a.isDigit ∧ b.isDigit ∧ c.isDigit ∧ d.isDigit then
      [(1000 * dval a + 100 * dval b + 10 * dval c + dval d, rest)]
    else []
  | _ => []

/-- The `%m` token: alternatives `1[0-2]`, `0[1-9]`, `[1-9]` in order. -/
def matchM (l : List Char) : List Cand :=
  (match l with
   | '1' :: c :: rest => if '0' ≤ c ∧ c ≤ '2' then [(10 + dval c, rest)] else []
   | _ => []) ++
  (match l with
   | '0' :: c :: rest => if '1' ≤ c ∧ c ≤ '9' then [(dval c, rest)] else []
   | _ => []) ++
  (match l with
   | c :: rest => if '1' ≤ c ∧ c ≤ '9' then [(dval c, rest)] else []
   | _ => [])

/-- The `%d` token: alternatives `3[0-1]`, `[1-2]\d`, `0[1-9]`, `[1-9]`,
`  [1-9]` (space then digit) in order. -/
def matchD (l : List Char) : List Cand :=
  (match l with
   | '3' :: c :: rest => if '0' ≤ c ∧ c ≤ '1' then [(30 + dval c, rest)] else []
   | _ => []) ++
  (match l with
   | c1 :: c2 :: rest =>
     if ('1' ≤ c1 ∧ c1 ≤ '2') ∧ c2.isDigit then [(10 * dval c1 + dval c2, rest)] else []
   | _ => []) ++
  (match l with
   | '0' :: c :: rest => if '1' ≤ c ∧ c ≤ '9' then [(dval c, rest)] else []
   | _ => []) ++
  (match l with
   | c :: rest => if '1' ≤ c ∧ c ≤ '9' then [(dval c, rest)] else []
   | _ => []) ++
  (match l with
   | ' ' :: c :: rest => if '1' ≤ c ∧ c ≤ '9' then [(dval c, rest)] else []
   | _ => [])

/-- A literal separator character in the format. -/
def matchLit (ch : Char) : List Char → List (List Char)
  | c :: rest => if c = ch then [rest] else []
  | _ => []

/-- A possibly-absent separator (`none` for the separatorless `%Y%m%d`). -/
def litStep : Option Char → List Char → List (List Char)
  | none, l => [l]
  | some ch, l => matchLit ch l

/-- All whole-pattern matches of `%Y sep %m sep %d`, in backtracking
priority order, as (year, month, day, rest). -/
def runYMD (sep : Option Char) (l : List Char) : List (Nat × Nat × Nat × List Char) :=
  (matchY l).flatMap fun yc =>
    (litStep sep yc.2).flatMap fun l2 =>
      (matchM l2).flatMap fun mc =>
        (litStep sep mc.2).flatMap fun l3 =>
          (matchD l3).map fun dc => (yc.1, mc.1, dc.1, dc.2)

/-- All whole-pattern matches of `%d sep %m sep %Y`, in backtracking
priority order. -/
def runDMY (sep : Option Char) (l : List Char) : List (Nat × Nat × Nat × List Char) :=
  (matchD l).flatMap fun dc =>
    (litStep sep dc.2).flatMap fun l2 =>
      (matchM l2).flatMap fun mc =>
        (litStep sep mc.2).flatMap fun l3 =>
          (matchY l3).map fun yc => (yc.1, mc.1, dc.1, yc.2)

/-- `re.match` + end-of-input check + `date` construction: take the first
whole-pattern match, require it to consume the input, and validate the
resulting calendar date. -/
def strptimeDate (cands : List (Nat × Nat × Nat × List Char)) : Option Date :=
  match cands.head? with
  | none => none
  | some (y, m, d, rest) =>
    if rest = [] ∧ isValidDate ⟨y, m, d⟩ then some ⟨y, m, d⟩ else none

/-- The five `patterns` of `parse_date_flex`, in source order:
`%Y-%m-%d`, `%Y/%m/%d`, `%d-%m-%Y`, `%d/%m/%Y`, `%Y%m%d`. -/
def formatPatterns : List (String → Option Date) :=
  [fun s => strptimeDate (runYMD (some '-') s.data),
   fun s => strptimeDate (runYMD (some '/') s.data),
   fun s => strptimeDate (runDMY (some '-') s.data),
   fun s => strptimeDate (runDMY (some '/') s.data),
   fun s => strptimeDate (runYMD none s.data)]

/-- First non-`none` element, the `for pattern in patterns: try ... except`
loop. -/
def firstSome : List (Option α) → Option α
  | [] => none
  | (some a) :: _ => some a
  | none :: rest => firstSome rest

/-- `parse_date_flex` from the source: empty/blank input appends
"<field> is empty"; otherwise the stripped string is tried against the five
patterns in order; if none matches, the not-a-valid-date message is
appended.  The returned pair is (parsed date, updated error list), modelling
the Python in-place append to `errors`. -/
def parse_date_flex (date_str field_name : String) (errors : List String) :
    Option Date × List String :=
  if date_str = "" ∨ pyStrip date_str = "" then
    (none, errors ++ [field_name ++ " is empty"])
  else
    let t := pyStrip date_str
    match firstSome (formatPatterns.map (fun p => p t)) with
    | some d => (some d, errors)
    | none =>
      (none, errors ++
        [field_name ++
         " is not a valid date in supported formats (expected something like YYYY-MM-DD)"])

/-- `age_in_years` (lines 112-122): completed years, with the Python tuple
comparison `(today.month, today.day) < (dob.month, dob.day)`. -/
def age_in_years (dob today : Date) : Int :=
  let years : Int := (today.year : Int) - (dob.year : Int)
  if today.month < dob.month ∨ (today.month = dob.month ∧ today.day < dob.day) then
    years - 1
  else years

/-!
The record validator `validate_record` (lines 129-231).  A raw record is an association list from
header label to raw cell string (`Dict[str, str]`; the extraction adapter
produces one value per header, so `List.lookup`'s first-match behaviour
coincides with the Python dict).  The outcome is the source's triple
`(is_valid, errors, normalized_record)`, wrapped in `Option`: `none` means an
exception escaped `validate_record`.
-/

/-- The `PatientRecord` dataclass. -/
structure PatientRecord where
  PatientID : String
  HealthCardNumber : String
  VersionCode : String
  DateOfBirth : String
  ServiceDate : String
deriving DecidableEq, Repr

/-- A raw record: mapping from field label to raw string value. -/
abbrev RawRecord := List (String × String)

/-- Python `raw_record.get(k)`. -/
def rawGet (r : RawRecord) (k : String) : Option String :=
  List.lookup k r

/-- `patient_id = (raw_record.get("Patient ID") or raw_record.get("PatientID")
or "").strip()`. -/
def extract_patient_id (r : RawRecord) : String :=
  pyStrip (pyOr (rawGet r "Patient ID") (pyOr (rawGet r "PatientID") ""))

/-- `health_card = (raw_record.get("Health Card Number") or
"").replace(" ", "").strip()`. -/
def extract_health_card (r : RawRecord) : String :=
  pyStrip (removeSpaces (pyOr (rawGet r "Health Card Number") ""))

/-- `version_code = (raw_record.get("Version Code") or "").strip()`. -/
def extract_version_code (r : RawRecord) : String :=
  pyStrip (pyOr (rawGet r "Version Code") "")

/-- `dob_str = (raw_record.get("Date of Birth") or "").strip()`. -/
def extract_dob_str (r : RawRecord) : String :=
  pyStrip (pyOr (rawGet r "Date of Birth") "")

/-- `service_str = (raw_record.get("Service Date") or "").strip()`. -/
def extract_service_str (r : RawRecord) : String :=
  pyStrip (pyOr (rawGet r "Service Date") "")

/-- The identifier-presence check (lines 209-210), as a named list for
stating the error-order equation. -/
def pidErrors (patient_id : String) : List String :=
  if patient_id = "" then ["Patient ID is missing"] else []

/-- Rule 1 (lines 157-166): the health-card cascade.  `none` would mean an
exception escaping `luhn_check` (proved impossible below). -/
def healthCardErrors (health_card : String) : Option (List String) :=
  if health_card = "" then some ["Health card number is missing"]
  else if !pyIsDigit health_card then
    some ["Health card number must contain only digits"]
  else if health_card.length ≠ 10 then
    some ["Health card number must be exactly 10 digits"]
  else
    match luhn_check health_card with
    | none => none
    | some b =>
      if b then some []
      else some ["Health card number failed MOD 10 (Luhn) validation"]

/-- Rule 2 (lines 168-176): the version-code cascade. -/
def versionCodeErrors (version_code : String) : List String :=
  if version_code = "" then ["Version code is missing"]
  else if version_code.length ≠ 2 then ["Version code must be exactly 2 characters"]
  else if !pyIsAlpha version_code then ["Version code must contain only letters A-Z"]
  else if !pyIsUpper version_code then ["Version code must be uppercase letters (A-Z)"]
  else []

/-- Rule 3 (lines 180-189): the date-of-birth range/age checks, applied when
the date parsed. -/
def dobRuleErrors (dob : Option Date) (today : Date) : List String :=
  match dob with
  | none => []
  | some db =>
    if Date.pyLt today db then ["Date of birth is in the future"]
    else
      let age := age_in_years db today
      (if age < 0 then ["Patient age cannot be negative"] else []) ++
      (if 150 ≤ age then ["Patient age must be less than 150 years"] else [])

/-- Rule 4 (lines 193-206): the service-date checks, applied when the date
parsed.  `today - timedelta(days=183)` can raise `OverflowError` (`none`). -/
def serviceRuleErrors (today : Date) (dob service_date : Option Date) :
    Option (List String) :=
  match service_date with
  | none => some []
  | some sd =>
    let futureErr := if Date.pyLt today sd then ["Service date is in the future"] else []
    let beforeDobErr :=
      match dob with
      | some db => if Date.pyLt sd db then ["Service date is before date of birth"] else []
      | none => []
    match Date.subDays today 183 with
    | none => none
    | some six_months_ago =>
      some (futureErr ++ beforeDobErr ++
        (if Date.pyLt sd six_months_ago then
          ["Service date is more than 6 months in the past"] else []))

/-- `validate_record` from the source: extract the five fields, run the rules
in order accumulating errors, and accept exactly when no error was
collected.  `none` models an exception escaping the call. -/
def validate_record (raw_record : RawRecord) (today : Date) :
    Option (Bool × List String × Option PatientRecord) :=
  let patient_id := extract_patient_id raw_record
  let health_card := extract_health_card raw_record
  let version_code := extract_version_code raw_record
  let dob_str := extract_dob_str raw_record
  let service_str := extract_service_str raw_record
  match healthCardErrors health_card with
  | none => none
  | some hcErrs =>
    let vcErrs := versionCodeErrors version_code
    let dobParsed := parse_date_flex dob_str "Date of birth" []
    let dob := dobParsed.1
    let svcParsed := parse_date_flex service_str "Service date" []
    let service_date := svcParsed.1
    match serviceRuleErrors today dob service_date with
    | none => none
    | some svcErrs =>
      let pidErrs := if patient_id = "" then ["Patient ID is missing"] else []
      let errors := hcErrs ++ vcErrs ++ dobParsed.2 ++ dobRuleErrors dob today ++
        svcParsed.2 ++ svcErrs ++ pidErrs
      if errors = [] then
        some (true, [],
          some ⟨patient_id, health_card, version_code,
                (match dob with | some d => d.isoformat | none => ""),
                (match service_date with | some d => d.isoformat | none => "")⟩)
      else
        some (false, errors, none)

/-- The error list of an outcome (empty when an exception escaped). -/
def outcomeErrors : Option (Bool × List String × Option PatientRecord) → List String
  | none => []
  | some o => o.2.1

/-!
The validation loop of `main` (lines 408-426): validate every raw record in
input order and partition the outcomes into `valid_records` and
`error_info`.  `none` models an exception aborting the loop.
-/

/-- The `for raw in raw_records` loop of `main`: returns
`(valid_records, error_info)`. -/
def main_partition (raw_records : List RawRecord) (today : Date) :
    Option (List PatientRecord × List (String × List String)) :=
  match raw_records with
  | [] => some ([], [])
  | raw :: rest =>
    match validate_record raw today with
    | none => none
    | some (is_valid, errs, normalized) =>
      match main_partition rest today with
      | none => none
      | some (vs, es) =>
        let patient_id :=
          pyStrip (pyOr (rawGet raw "Patient ID") (pyOr (rawGet raw "PatientID") ""))
        if is_valid ∧ normalized.isSome then
          some (normalized.getD ⟨"", "", "", "", ""⟩ :: vs, es)
        else
          some (vs, (patient_id, errs) :: es)

/-- The accepted-partition contribution of one outcome: the normalized
record, exactly when `main` would append to `valid_records`
(`if is_valid and normalized`). -/
def acceptedOf : Option (Bool × List String × Option PatientRecord) → Option PatientRecord
  | some (true, _, some rec) => some rec
  | _ => none

/-- The rejected-partition contribution of one outcome: the
`(patient_id, errors)` pair, exactly when `main` would append to
`error_info`. -/
def rejectedOf (raw : RawRecord) :
    Option (Bool × List String × Option PatientRecord) → Option (String × List String)
  | some (true, _, some _) => none
  | some (_, errs, _) => some (extract_patient_id raw, errs)
  | none => none

/-!
Specification-side definitions, written from the words of the claims (not
from the source), used to compare the code against the claimed behaviour.
-/

/-- Claimed identifier lookup (claim C1, as stated): the first **present**
label wins, even when its value is empty; empty only when neither label is
present; surrounding whitespace stripped. -/
def claimFirstPresentId (r : RawRecord) : String :=
  pyStrip (match rawGet r "Patient ID" with
           | some s => s
           | none => (rawGet r "PatientID").getD "")

/-- First candidate value that is non-empty, in order; empty string when all
candidates are absent or empty. -/
def firstNonEmptyValue : List (Option String) → String
  | [] => ""
  | none :: rest => firstNonEmptyValue rest
  | (some s) :: rest => if s = "" then firstNonEmptyValue rest else s

/-- Amended identifier lookup: the first label carrying a **non-empty** raw
value wins (absent and empty-valued labels fall through), then surrounding
whitespace is stripped. -/
def amendedPatientId (r : RawRecord) : String :=
  pyStrip (firstNonEmptyValue [rawGet r "Patient ID", rawGet r "PatientID"])

/-- The MOD-10/Luhn reference computation, transcribed from the words of
claim C3: split off the trailing check digit, reverse the remaining digits,
double each reversed digit at even 0-based index subtracting 9 when the
doubled value exceeds 9, sum all transformed digits plus the check digit,
and test divisibility of the sum by 10. -/
def luhnReference (s : String) : Bool :=
  let ds := s.data.map dval
  let check := ds.getLastD 0
  let body := ds.dropLast.reverse
  let transformed :=
    body.enum.map (fun p =>
      if p.1 % 2 = 0 then (if 9 < 2 * p.2 then 2 * p.2 - 9 else 2 * p.2) else p.2)
  decide ((transformed.sum + check) % 10 = 0)

/-!
Calendar lemmas: the cumulative day counts behave like the calendar, the
ordinal map is strictly monotone with respect to the lexicographic date
order, and `fromOrdinal` inverts `Date.toOrdinal` on the valid range.
-/

theorem isLeap_iff (y : Nat) :
    isLeap y = true ↔ (y % 4 = 0 ∧ (y % 100 ≠ 0 ∨ y % 400 = 0)) := by
  simp [isLeap]

set_option maxHeartbeats 1000000 in
theorem daysBeforeYear_succ (y : Nat) (h : 1 ≤ y) :
    daysBeforeYear (y + 1) = daysBeforeYear y + daysInYear y := by
  unfold daysBeforeYear daysInYear
  split
  next hL =>
    have hc := (isLeap_iff y).1 hL
    omega
  next hL =>
    have hc : ¬ (y % 4 = 0 ∧ (y % 100 ≠ 0 ∨ y % 400 = 0)) :=
      fun hcc => hL ((isLeap_iff y).2 hcc)
    omega

theorem daysBeforeYear_mono {y z : Nat} (h : y ≤ z) :
    daysBeforeYear y ≤ daysBeforeYear z := by
  induction z with
  | zero =>
    have hy : y = 0 := by omega
    subst hy
    exact Nat.le_refl _
  | succ k ih =>
    rcases Nat.lt_or_ge y (k + 1) with hlt | hge
    · rcases Nat.eq_zero_or_pos k with rfl | hk
      · have hy : y = 0 := by omega
        subst hy
        simp [daysBeforeYear]
      · have step := daysBeforeYear_succ k hk
        exact le_trans (ih (by omega)) (step ▸ Nat.le_add_right _ _)
    · have hy : y = k + 1 := by omega
      subst hy
      exact Nat.le_refl _

theorem daysInYear_le (y : Nat) : daysInYear y ≤ 366 := by
  unfold daysInYear
  split <;> omega

theorem daysBeforeMonth_succ (y m : Nat) (h1 : 1 ≤ m) (h2 : m ≤ 12) :
    daysBeforeMonth y (m + 1) = daysBeforeMonth y m + daysInMonth y m := by
  interval_cases m <;>
    cases hisL : isLeap y <;>
      simp [daysBeforeMonth, daysInMonth, hisL]

theorem daysBeforeMonth_13 (y : Nat) : daysBeforeMonth y 13 = daysInYear y := by
  cases hisL : isLeap y <;> simp [daysBeforeMonth, daysInYear, hisL]

theorem daysBeforeMonth_mono (y : Nat) :
    ∀ m m', 1 ≤ m → m ≤ m' → m' ≤ 13 →
      daysBeforeMonth y m ≤ daysBeforeMonth y m' := by
  intro m m' h1 hmm h2
  induction m' with
  | zero => omega
  | succ k ih =>
    rcases Nat.lt_or_ge m (k + 1) with hlt | hge
    · have hk12 : k ≤ 12 := by omega
      have hk1 : 1 ≤ k := by omega
      have step := daysBeforeMonth_succ y k hk1 hk12
      have base := ih (by omega) (by omega)
      omega
    · have : m = k + 1 := by omega
      subst this
      exact Nat.le_refl _

theorem dayOfYear_le {d : Date} (h : isValidDate d = true) :
    daysBeforeMonth d.year d.month + d.day ≤ daysInYear d.year := by
  obtain ⟨y, m, dd⟩ := d
  simp only [isValidDate, decide_eq_true_eq] at h
  obtain ⟨h1, h2, h3, h4, h5, h6⟩ := h
  show daysBeforeMonth y m + dd ≤ daysInYear y
  have step := daysBeforeMonth_succ y m h3 h4
  have mono := daysBeforeMonth_mono y (m + 1) 13 (by omega) (by omega) (by omega)
  have h13 := daysBeforeMonth_13 y
  omega

theorem toOrdinal_le_max {d : Date} (h : isValidDate d = true) :
    d.toOrdinal ≤ maxOrdinal := by
  have hday := dayOfYear_le h
  simp only [isValidDate, decide_eq_true_eq] at h
  obtain ⟨h1, h2, h3, h4, h5, h6⟩ := h
  have hsucc := daysBeforeYear_succ d.year h1
  have hmono := daysBeforeYear_mono (show d.year + 1 ≤ 10000 by omega)
  have hval : daysBeforeYear 10000 = 3652059 := by decide
  have h13 := daysBeforeMonth_13 d.year
  unfold Date.toOrdinal
  unfold maxOrdinal
  omega

theorem toOrdinal_lt_of_pyLt {a b : Date} (hva : isValidDate a = true)
    (hvb : isValidDate b = true) (h : Date.pyLt a b = true) :
    a.toOrdinal < b.toOrdinal := by
  obtain ⟨ya, ma, da⟩ := a
  obtain ⟨yb, mb, db⟩ := b
  simp only [isValidDate, decide_eq_true_eq] at hva hvb
  simp only [Date.pyLt, decide_eq_true_eq] at h
  obtain ⟨ha1, ha2, ha3, ha4, ha5, ha6⟩ := hva
  obtain ⟨hb1, hb2, hb3, hb4, hb5, hb6⟩ := hvb
  show daysBeforeYear ya + daysBeforeMonth ya ma + da <
    daysBeforeYear yb + daysBeforeMonth yb mb + db
  rcases h with hy | ⟨hy, hm | ⟨hm, hd⟩⟩
  · have hday : daysBeforeMonth ya ma + da ≤ daysInYear ya := by
      have step := daysBeforeMonth_succ ya ma ha3 ha4
      have mono := daysBeforeMonth_mono ya (ma + 1) 13 (by omega) (by omega) (by omega)
      have h13 := daysBeforeMonth_13 ya
      omega
    have hsucc := daysBeforeYear_succ ya ha1
    have hmono := daysBeforeYear_mono (show ya + 1 ≤ yb by omega)
    omega
  · subst hy
    have hstep := daysBeforeMonth_succ ya ma ha3 ha4
    have hmono := daysBeforeMonth_mono ya (ma + 1) mb (by omega) (by omega) (by omega)
    omega
  · subst hy
    subst hm
    omega

theorem pyLt_iff_toOrdinal {a b : Date} (hva : isValidDate a = true)
    (hvb : isValidDate b = true) :
    Date.pyLt a b = true ↔ a.toOrdinal < b.toOrdinal := by
  constructor
  · exact toOrdinal_lt_of_pyLt hva hvb
  · intro h
    by_contra hne
    have htri : Date.pyLt b a = true ∨ a = b := by
      obtain ⟨ya, ma, da⟩ := a
      obtain ⟨yb, mb, db⟩ := b
      simp only [Date.pyLt, decide_eq_true_eq, Date.mk.injEq] at hne ⊢
      omega
    rcases htri with hlt | heq
    · have := toOrdinal_lt_of_pyLt hvb hva hlt
      omega
    · subst heq
      omega


theorem yearOf_correct (n : Nat) (h : 1 ≤ n) :
    1 ≤ yearOf n ∧ daysBeforeYear (yearOf n) < n ∧ n ≤ daysBeforeYear (yearOf n + 1) := by
  have hA : daysBeforeYear (400 * (n - 1) / 146097 + 1) < n := by
    unfold daysBeforeYear
    omega
  have hB : n ≤ daysBeforeYear (400 * (n - 1) / 146097 + 1 + 1 + 1) := by
    unfold daysBeforeYear
    omega
  simp only [yearOf]
  split
  next h1 => omega
  next h1 =>
    split
    next h2 => exact ⟨by omega, h2, hB⟩
    next h2 => exact ⟨by omega, by omega, by omega⟩

set_option maxHeartbeats 3000000 in
theorem monthOf_correct (y r : Nat) (h1 : 1 ≤ r) (h2 : r ≤ daysInYear y) :
    1 ≤ monthOf y r ∧ monthOf y r ≤ 12 ∧
      daysBeforeMonth y (monthOf y r) < r ∧
      r ≤ daysBeforeMonth y (monthOf y r) + daysInMonth y (monthOf y r) := by
  have e1 : daysBeforeMonth y 1 = 0 := by simp [daysBeforeMonth]
  have h13 := daysBeforeMonth_13 y
  have s1 : daysBeforeMonth y 2 = daysBeforeMonth y 1 + daysInMonth y 1 :=
    daysBeforeMonth_succ y 1 (by omega) (by omega)
  have s2 : daysBeforeMonth y 3 = daysBeforeMonth y 2 + daysInMonth y 2 :=
    daysBeforeMonth_succ y 2 (by omega) (by omega)
  have s3 : daysBeforeMonth y 4 = daysBeforeMonth y 3 + daysInMonth y 3 :=
    daysBeforeMonth_succ y 3 (by omega) (by omega)
  have s4 : daysBeforeMonth y 5 = daysBeforeMonth y 4 + daysInMonth y 4 :=
    daysBeforeMonth_succ y 4 (by omega) (by omega)
  have s5 : daysBeforeMonth y 6 = daysBeforeMonth y 5 + daysInMonth y 5 :=
    daysBeforeMonth_succ y 5 (by omega) (by omega)
  have s6 : daysBeforeMonth y 7 = daysBeforeMonth y 6 + daysInMonth y 6 :=
    daysBeforeMonth_succ y 6 (by omega) (by omega)
  have s7 : daysBeforeMonth y 8 = daysBeforeMonth y 7 + daysInMonth y 7 :=
    daysBeforeMonth_succ y 7 (by omega) (by omega)
  have s8 : daysBeforeMonth y 9 = daysBeforeMonth y 8 + daysInMonth y 8 :=
    daysBeforeMonth_succ y 8 (by omega) (by omega)
  have s9 : daysBeforeMonth y 10 = daysBeforeMonth y 9 + daysInMonth y 9 :=
    daysBeforeMonth_succ y 9 (by omega) (by omega)
  have s10 : daysBeforeMonth y 11 = daysBeforeMonth y 10 + daysInMonth y 10 :=
    daysBeforeMonth_succ y 10 (by omega) (by omega)
  have s11 : daysBeforeMonth y 12 = daysBeforeMonth y 11 + daysInMonth y 11 :=
    daysBeforeMonth_succ y 11 (by omega) (by omega)
  have s12 : daysBeforeMonth y 13 = daysBeforeMonth y 12 + daysInMonth y 12 :=
    daysBeforeMonth_succ y 12 (by omega) (by omega)
  unfold monthOf
  repeat' split
  all_goals omega

theorem fromOrdinal_correct (n : Nat) (h1 : 1 ≤ n) (h2 : n ≤ maxOrdinal) :
    isValidDate (fromOrdinal n) = true ∧ (fromOrdinal n).toOrdinal = n := by
  obtain ⟨hy1, hylt, hyle⟩ := yearOf_correct n h1
  have hdsucc := daysBeforeYear_succ (yearOf n) hy1
  have hr1 : 1 ≤ n - daysBeforeYear (yearOf n) := by omega
  have hr2 : n - daysBeforeYear (yearOf n) ≤ daysInYear (yearOf n) := by omega
  obtain ⟨hm1, hm2, hmlt, hmle⟩ := monthOf_correct (yearOf n) (n - daysBeforeYear (yearOf n)) hr1 hr2
  have hy9999 : yearOf n ≤ 9999 := by
    by_contra hgt
    have hmono : daysBeforeYear 10000 ≤ daysBeforeYear (yearOf n) := daysBeforeYear_mono (by omega)
    have hv : daysBeforeYear 10000 = 3652059 := by decide
    unfold maxOrdinal at h2
    omega
  have hfo : fromOrdinal n =
      ⟨yearOf n, monthOf (yearOf n) (n - daysBeforeYear (yearOf n)),
       (n - daysBeforeYear (yearOf n)) -
         daysBeforeMonth (yearOf n) (monthOf (yearOf n) (n - daysBeforeYear (yearOf n)))⟩ := rfl
  rw [hfo]
  constructor
  · simp only [isValidDate, decide_eq_true_eq]
    exact ⟨hy1, hy9999, hm1, hm2, by omega, by omega⟩
  · unfold Date.toOrdinal
    dsimp only
    omega


/-!
Support lemmas about the parser, the checksum, and the rule blocks.
-/

theorem firstSome_mem {α : Type} {l : List (Option α)} {a : α}
    (h : firstSome l = some a) : some a ∈ l := by
  induction l with
  | nil => simp [firstSome] at h
  | cons x rest ih =>
    cases x with
    | none =>
      simp only [firstSome] at h
      exact List.mem_cons_of_mem _ (ih h)
    | some b =>
      simp only [firstSome] at h
      rw [h]
      exact List.mem_cons_self _ _

theorem strptimeDate_valid {cands : List (Nat × Nat × Nat × List Char)} {d : Date}
    (h : strptimeDate cands = some d) : isValidDate d = true := by
  rcases hc : cands.head? with _ | ⟨y, m, dd, rest⟩ <;>
    simp only [strptimeDate, hc] at h
  · exact Option.noConfusion h
  · split at h
    next hcond =>
      obtain rfl : Date.mk y m dd = d := Option.some.inj h
      exact hcond.2
    next => exact absurd h (by simp)

theorem parse_cases (s f : String) (es : List String) :
    (∃ d, parse_date_flex s f es = (some d, es) ∧ isValidDate d = true) ∨
    parse_date_flex s f es = (none, es ++ [f ++ " is empty"]) ∨
    parse_date_flex s f es =
      (none, es ++
        [f ++ " is not a valid date in supported formats (expected something like YYYY-MM-DD)"]) := by
  unfold parse_date_flex
  split
  · right
    left
    rfl
  · rcases hfs : firstSome (formatPatterns.map fun p => p (pyStrip s)) with _ | d
    · right
      right
      simp [hfs]
    · left
      refine ⟨d, by simp [hfs], ?_⟩
      have hmem := firstSome_mem hfs
      simp only [formatPatterns, List.map_cons, List.map_nil, List.mem_cons,
        List.not_mem_nil, or_false] at hmem
      rcases hmem with h1 | h1 | h1 | h1 | h1 <;> exact strptimeDate_valid h1.symm

theorem appended_ne_self {α : Type} (es : List α) (x : α) : es ++ [x] ≠ es := by
  intro h
  have := congrArg List.length h
  simp at this

theorem luhn_check_isSome (s : String) : (luhn_check s).isSome = true := by
  unfold luhn_check
  split
  · rfl
  next hdig =>
    have hpd : pyIsDigit s = true := by
      rcases hb : pyIsDigit s with _ | _
      · rw [hb] at hdig
        simp at hdig
      · rfl
    have hne : s.data ≠ [] := by
      have h1 : s.isEmpty = false := by
        simp only [pyIsDigit, Bool.and_eq_true, Bool.not_eq_true'] at hpd
        exact hpd.1
      intro hnil
      have hs : s = "" := String.ext (by simpa using hnil)
      rw [hs] at h1
      exact absurd h1 (by decide)
    rcases hl : (s.data.map dval).getLast? with _ | c
    · rw [List.getLast?_eq_none_iff] at hl
      simp only [List.map_eq_nil_iff] at hl
      exact absurd hl hne
    · simp [hl]

theorem age_in_years_nonneg {dob today : Date} (h : Date.pyLt today dob = false) :
    0 ≤ age_in_years dob today := by
  obtain ⟨yd, md, dd⟩ := dob
  obtain ⟨yt, mt, dt⟩ := today
  simp only [Date.pyLt, decide_eq_false_iff_not] at h
  simp only [age_in_years]
  split <;> omega


theorem healthCardErrors_isSome (hc : String) : (healthCardErrors hc).isSome = true := by
  have hl := luhn_check_isSome hc
  unfold healthCardErrors
  split
  · rfl
  split
  · rfl
  split
  · rfl
  rcases hlc : luhn_check hc with _ | b
  · rw [hlc] at hl
    exact absurd hl (by simp)
  · cases b <;> simp

theorem healthCardErrors_cases {hc : String} {l : List String}
    (h : healthCardErrors hc = some l) :
    l = [] ∨ l = ["Health card number is missing"] ∨
    l = ["Health card number must contain only digits"] ∨
    l = ["Health card number must be exactly 10 digits"] ∨
    l = ["Health card number failed MOD 10 (Luhn) validation"] := by
  unfold healthCardErrors at h
  repeat' split at h
  all_goals simp_all

theorem versionCodeErrors_cases (vc : String) :
    versionCodeErrors vc = [] ∨ versionCodeErrors vc = ["Version code is missing"] ∨
    versionCodeErrors vc = ["Version code must be exactly 2 characters"] ∨
    versionCodeErrors vc = ["Version code must contain only letters A-Z"] ∨
    versionCodeErrors vc = ["Version code must be uppercase letters (A-Z)"] := by
  unfold versionCodeErrors
  repeat' split
  all_goals simp

theorem dobRuleErrors_cases (dob : Option Date) (today : Date) :
    dobRuleErrors dob today = [] ∨
    dobRuleErrors dob today = ["Date of birth is in the future"] ∨
    dobRuleErrors dob today = ["Patient age must be less than 150 years"] := by
  rcases dob with _ | db
  · simp [dobRuleErrors]
  · simp only [dobRuleErrors]
    split
    next hfut => simp
    next hfut =>
      have hf : Date.pyLt today db = false := Bool.eq_false_iff.mpr hfut
      have hage := age_in_years_nonneg hf
      rw [if_neg (by omega)]
      simp only [List.nil_append]
      split <;> simp

theorem serviceRuleErrors_isSome (today : Date) (dob sd : Option Date)
    (h : (Date.subDays today 183).isSome = true) :
    (serviceRuleErrors today dob sd).isSome = true := by
  rcases sd with _ | s
  · rfl
  · simp only [serviceRuleErrors]
    rcases hsub : Date.subDays today 183 with _ | six
    · rw [hsub] at h
      exact absurd h (by simp)
    · rfl

theorem mem_serviceRuleErrors {today : Date} {dob sd : Option Date} {l : List String}
    {x : String} (h : serviceRuleErrors today dob sd = some l) (hx : x ∈ l) :
    x = "Service date is in the future" ∨ x = "Service date is before date of birth" ∨
    x = "Service date is more than 6 months in the past" := by
  rcases sd with _ | s
  · obtain rfl : [] = l := Option.some.inj h
    simp at hx
  · simp only [serviceRuleErrors] at h
    rcases hsub : Date.subDays today 183 with _ | six <;> simp only [hsub] at h
    · exact Option.noConfusion h
    · obtain rfl := Option.some.inj h
      simp only [List.mem_append] at hx
      rcases hx with (hx | hx) | hx
      · revert hx
        split <;> simp_all
      · revert hx
        rcases dob with _ | db
        · simp
        · split <;> simp_all
      · revert hx
        split <;> simp_all


theorem validate_record_eq (raw : RawRecord) (today : Date)
    {hcErrs svcErrs : List String}
    (hhc : healthCardErrors (extract_health_card raw) = some hcErrs)
    (hsvc : serviceRuleErrors today
      (parse_date_flex (extract_dob_str raw) "Date of birth" []).1
      (parse_date_flex (extract_service_str raw) "Service date" []).1 = some svcErrs) :
    validate_record raw today =
      (if hcErrs ++ versionCodeErrors (extract_version_code raw) ++
          (parse_date_flex (extract_dob_str raw) "Date of birth" []).2 ++
          dobRuleErrors (parse_date_flex (extract_dob_str raw) "Date of birth" []).1 today ++
          (parse_date_flex (extract_service_str raw) "Service date" []).2 ++ svcErrs ++
          pidErrors (extract_patient_id raw) = [] then
        some (true, [],
          some ⟨extract_patient_id raw, extract_health_card raw, extract_version_code raw,
            (match (parse_date_flex (extract_dob_str raw) "Date of birth" []).1 with
             | some d => d.isoformat
             | none => ""),
            (match (parse_date_flex (extract_service_str raw) "Service date" []).1 with
             | some d => d.isoformat
             | none => "")⟩)
      else
        some (false,
          hcErrs ++ versionCodeErrors (extract_version_code raw) ++
            (parse_date_flex (extract_dob_str raw) "Date of birth" []).2 ++
            dobRuleErrors (parse_date_flex (extract_dob_str raw) "Date of birth" []).1 today ++
            (parse_date_flex (extract_service_str raw) "Service date" []).2 ++ svcErrs ++
            pidErrors (extract_patient_id raw),
          none)) := by
  simp only [validate_record, hhc, hsvc, pidErrors]

theorem subDays_isSome {today : Date} (hv : isValidDate today = true)
    (h183 : 183 < today.toOrdinal) : (Date.subDays today 183).isSome = true := by
  have hmax := toOrdinal_le_max hv
  simp only [Date.subDays]
  split
  next => rfl
  next hc =>
    exfalso
    simp only [maxOrdinal] at hmax hc
    omega

theorem validate_record_isSome (raw : RawRecord) (today : Date)
    (hv : isValidDate today = true) (h183 : 183 < today.toOrdinal) :
    (validate_record raw today).isSome = true := by
  obtain ⟨hcErrs, hhc⟩ :=
    Option.isSome_iff_exists.mp (healthCardErrors_isSome (extract_health_card raw))
  obtain ⟨svcErrs, hsvc⟩ := Option.isSome_iff_exists.mp
    (serviceRuleErrors_isSome today _ _ (subDays_isSome hv h183))
  rw [validate_record_eq raw today hhc hsvc]
  simp only [apply_ite Option.isSome, Option.isSome_some, ite_self]


/-!
Further helper lemmas for the claim theorems.
-/

theorem luhnSum_eq_enumFrom (ds : List Nat) (i : Nat) :
    luhnSum i ds = ((ds.enumFrom i).map (fun p =>
      if p.1 % 2 = 0 then (if 9 < 2 * p.2 then 2 * p.2 - 9 else 2 * p.2) else p.2)).sum := by
  induction ds generalizing i with
  | nil => simp [luhnSum]
  | cons d rest ih =>
    simp only [luhnSum, List.enumFrom, List.map_cons, List.sum_cons, ih (i + 1)]

theorem parse_date_flex_fst (s f : String) (es : List String) (hne : pyStrip s ≠ "") :
    (parse_date_flex s f es).1 = firstSome (formatPatterns.map (fun p => p (pyStrip s))) := by
  have hs : s ≠ "" := by
    intro hcon
    rw [hcon] at hne
    exact hne rfl
  unfold parse_date_flex
  rw [if_neg (by simp [hs, hne])]
  rcases hfs : firstSome (formatPatterns.map fun p => p (pyStrip s)) with _ | d <;>
    simp [hfs]

theorem pyStrip_data (s : String) :
    (pyStrip s).data =
      List.rdropWhile Char.isWhitespace (List.dropWhile Char.isWhitespace s.data) := rfl

theorem pyStrip_idem (s : String) : pyStrip (pyStrip s) = pyStrip s := by
  apply String.ext
  rw [pyStrip_data, pyStrip_data s]
  have hdw : List.dropWhile Char.isWhitespace
      (List.rdropWhile Char.isWhitespace (List.dropWhile Char.isWhitespace s.data)) =
      List.rdropWhile Char.isWhitespace (List.dropWhile Char.isWhitespace s.data) := by
    rw [List.dropWhile_eq_self_iff]
    intro hl
    have hpre := List.rdropWhile_prefix Char.isWhitespace
      (List.dropWhile Char.isWhitespace s.data)
    have hlen : 0 < (List.dropWhile Char.isWhitespace s.data).length :=
      lt_of_lt_of_le hl hpre.length_le
    have hg := List.dropWhile_get_zero_not Char.isWhitespace s.data hlen
    simpa [List.get_eq_getElem, List.IsPrefix.getElem hpre] using hg
  rw [hdw, List.rdropWhile_idempotent]

theorem pyStrip_subset (s : String) : (pyStrip s).data ⊆ s.data := by
  rw [pyStrip_data]
  intro c hc
  exact (List.dropWhile_suffix Char.isWhitespace).subset
    ((List.rdropWhile_prefix Char.isWhitespace _).subset hc)

/-!
The claim theorems.
-/

/-- Claim C3: `isValidChecksum` returns false on any input containing a
non-digit character, and on a non-empty all-digit string it returns true
exactly when the MOD-10/Luhn reference computation (split off the trailing
check digit, reverse, double at even 0-based indices subtracting 9 above 9,
sum plus check digit, divisibility by 10) succeeds. -/
theorem C3_luhn_check_reference :
    (∀ s : String, (∃ c ∈ s.data, ¬ c.isDigit) → luhn_check s = some false) ∧
    (∀ s : String, s ≠ "" → (∀ c ∈ s.data, c.isDigit) →
      luhn_check s = some (luhnReference s)) := by
  constructor
  · intro s hc
    obtain ⟨c, hmem, hnd⟩ := hc
    have hpd : pyIsDigit s = false := by
      simp only [pyIsDigit, Bool.and_eq_false_iff]
      right
      rw [List.all_eq_false]
      exact ⟨c, hmem, by simpa using hnd⟩
    simp [luhn_check, hpd]
  · intro s hne hdig
    have hpd : pyIsDigit s = true := by
      have h1 : s.isEmpty = false := by
        rcases hb : s.isEmpty with _ | _
        · rfl
        · exact absurd ((String.isEmpty_iff s).mp hb) hne
      simp only [pyIsDigit, h1, Bool.not_false, Bool.true_and, List.all_eq_true]
      intro c hc
      exact hdig c hc
    have hnil : s.data ≠ [] := by
      intro hn
      exact hne (String.ext (by simpa using hn))
    have hlast : ∃ c, (s.data.map dval).getLast? = some c := by
      rw [Option.isSome_iff_exists.symm, List.getLast?_isSome]
      simp [hnil]
    obtain ⟨c, hl⟩ := hlast
    simp only [luhn_check, hpd, Bool.not_true, Bool.false_eq_true, if_false, hl]
    simp only [luhnReference]
    rw [List.getLastD_eq_getLast?, hl]
    simp only [Option.getD_some, List.enum]
    rw [luhnSum_eq_enumFrom]

/-- Claim C9: `parse_date_flex` fails on blank input with the "is empty"
message, otherwise tries the five patterns in their fixed order returning
the first success; the five sample spellings of 2024-01-31 all parse to
that date, while `""` and `"not-a-date"` fail. -/
theorem C9_parse_date_flex :
    (∀ s f : String, ∀ es : List String, pyStrip s = "" →
      parse_date_flex s f es = (none, es ++ [f ++ " is empty"])) ∧
    (∀ s f : String, ∀ es : List String, pyStrip s ≠ "" →
      (parse_date_flex s f es).1 =
        firstSome (formatPatterns.map (fun p => p (pyStrip s)))) ∧
    (∀ f : String, ∀ es : List String,
      (parse_date_flex "2024-01-31" f es).1 = some ⟨2024, 1, 31⟩ ∧
      (parse_date_flex "2024/01/31" f es).1 = some ⟨2024, 1, 31⟩ ∧
      (parse_date_flex "31-01-2024" f es).1 = some ⟨2024, 1, 31⟩ ∧
      (parse_date_flex "31/01/2024" f es).1 = some ⟨2024, 1, 31⟩ ∧
      (parse_date_flex "20240131" f es).1 = some ⟨2024, 1, 31⟩) ∧
    (∀ f : String, ∀ es : List String,
      parse_date_flex "" f es = (none, es ++ [f ++ " is empty"]) ∧
      (parse_date_flex "not-a-date" f es).1 = none) := by
  refine ⟨?_, ?_, ?_, ?_⟩
  · intro s f es hs
    unfold parse_date_flex
    rw [if_pos (Or.inr hs)]
  · intro s f es hne
    exact parse_date_flex_fst s f es hne
  · intro f es
    refine ⟨?_, ?_, ?_, ?_, ?_⟩ <;>
      rw [parse_date_flex_fst _ f es (by decide)] <;> decide
  · intro f es
    constructor
    · unfold parse_date_flex
      rw [if_pos (Or.inl rfl)]
    · rw [parse_date_flex_fst _ f es (by decide)]
      decide


/-- Witness for C3 at concrete inputs: an input with a letter fails, and a
10-digit string is checked against the reference computation. -/
theorem C3_luhn_check_reference_witness :
    luhn_check "12a4" = some false ∧
    luhn_check "1234567897" = some (luhnReference "1234567897") :=
  ⟨C3_luhn_check_reference.1 "12a4" ⟨'a', by decide, by decide⟩,
   C3_luhn_check_reference.2 "1234567897" (by decide) (by decide)⟩

/-- Witness for C9 at concrete inputs. -/
theorem C9_parse_date_flex_witness :
    parse_date_flex "   " "Date of birth" [] = (none, [] ++ ["Date of birth" ++ " is empty"]) ∧
    (parse_date_flex "2024-01-31" "Date of birth" []).1 =
      firstSome (formatPatterns.map (fun p => p (pyStrip "2024-01-31"))) ∧
    (parse_date_flex "2024-01-31" "Date of birth" []).1 = some ⟨2024, 1, 31⟩ ∧
    (parse_date_flex "not-a-date" "Service date" []).1 = none :=
  ⟨C9_parse_date_flex.1 "   " "Date of birth" [] (by decide),
   C9_parse_date_flex.2.1 "2024-01-31" "Date of birth" [] (by decide),
   (C9_parse_date_flex.2.2.1 "Date of birth" []).1,
   (C9_parse_date_flex.2.2.2 "Service date" []).2⟩

/-- Claim C1 counterexample: the identifier lookup is by Python `or`, so a
present-but-empty "Patient ID" label falls through to "PatientID" (the
claim's first-present rule would give the empty string), and internal
whitespace other than the space character is kept in the health card. -/
theorem C1_counterexample :
    extract_patient_id [("Patient ID", ""), ("PatientID", "X")] ≠
      claimFirstPresentId [("Patient ID", ""), ("PatientID", "X")] ∧
    extract_patient_id [("Patient ID", ""), ("PatientID", "X")] = "X" ∧
    claimFirstPresentId [("Patient ID", ""), ("PatientID", "X")] = "" ∧
    extract_health_card [("Health Card Number", "12\t34")] = "12\t34" :=
  ⟨by decide, by decide, by decide, by decide⟩

/-- Claim C1 amended: the identifier is extracted by trying "Patient ID"
then "PatientID" with the first label carrying a non-empty raw value
winning (absent and empty labels fall through; empty when both are absent
or empty); surrounding whitespace is stripped from every extracted field;
internal space characters are removed from the health-card field (so
"1234 567 890" becomes "1234567890"). -/
theorem C1_amended_extraction :
    (∀ raw : RawRecord, extract_patient_id raw = amendedPatientId raw) ∧
    (∀ raw : RawRecord,
      pyStrip (extract_patient_id raw) = extract_patient_id raw ∧
      pyStrip (extract_health_card raw) = extract_health_card raw ∧
      pyStrip (extract_version_code raw) = extract_version_code raw ∧
      pyStrip (extract_dob_str raw) = extract_dob_str raw ∧
      pyStrip (extract_service_str raw) = extract_service_str raw) ∧
    (∀ raw : RawRecord, ' ' ∉ (extract_health_card raw).data) ∧
    extract_health_card [("Health Card Number", "1234 567 890")] = "1234567890" := by
  refine ⟨?_, ?_, ?_, by decide⟩
  · intro raw
    unfold extract_patient_id amendedPatientId
    congr 1
    rcases rawGet raw "Patient ID" with _ | s1 <;>
      rcases rawGet raw "PatientID" with _ | s2 <;>
        simp [pyOr, firstNonEmptyValue]
  · intro raw
    exact ⟨pyStrip_idem _, pyStrip_idem _, pyStrip_idem _, pyStrip_idem _, pyStrip_idem _⟩
  · intro raw hmem
    have hsub := pyStrip_subset _ hmem
    simp only [removeSpaces, List.mem_filter] at hsub
    exact absurd hsub.2 (by decide)


theorem validate_record_some {raw : RawRecord} {today : Date}
    {out : Bool × List String × Option PatientRecord}
    (h : validate_record raw today = some out) :
    ∃ hcErrs svcErrs,
      healthCardErrors (extract_health_card raw) = some hcErrs ∧
      serviceRuleErrors today (parse_date_flex (extract_dob_str raw) "Date of birth" []).1
        (parse_date_flex (extract_service_str raw) "Service date" []).1 = some svcErrs := by
  rcases hhc : healthCardErrors (extract_health_card raw) with _ | hcErrs
  · exfalso
    simp only [validate_record, hhc] at h
    exact Option.noConfusion h
  · rcases hsvc : serviceRuleErrors today
        (parse_date_flex (extract_dob_str raw) "Date of birth" []).1
        (parse_date_flex (extract_service_str raw) "Service date" []).1 with _ | svcErrs
    · exfalso
      simp only [validate_record, hhc, hsvc] at h
      exact Option.noConfusion h
    · exact ⟨hcErrs, svcErrs, rfl, rfl⟩

/-- Claim C2 counterexample: with reference date 0001-01-01 and a record
whose service date parses, `today - timedelta(days=183)` leaves the
supported date range and raises `OverflowError` inside `validate_record`,
so the call does not return normally (modelled by `none`). -/
theorem C2_counterexample :
    validate_record [("Service Date", "2024-01-31")] ⟨1, 1, 1⟩ = none := by
  decide

/-- Claim C2 amended: `validate_record` returns normally for every raw
record when the reference date is a real calendar date whose ordinal
exceeds 183 (for earlier reference dates the six-month computation
underflows Python's date range and raises `OverflowError`); and
`isValidChecksum` is total on all strings. -/
theorem C2_validate_total :
    (∀ (raw : RawRecord) (today : Date), isValidDate today = true →
      183 < today.toOrdinal → (validate_record raw today).isSome = true) ∧
    (∀ s : String, (luhn_check s).isSome = true) :=
  ⟨fun raw today hv h => validate_record_isSome raw today hv h, luhn_check_isSome⟩

/-- Witness for the amended C2 at a concrete record and reference date. -/
theorem C2_validate_total_witness :
    (validate_record [("Service Date", "2024-01-31")] ⟨2024, 1, 20⟩).isSome = true ∧
    (luhn_check "").isSome = true :=
  ⟨C2_validate_total.1 [("Service Date", "2024-01-31")] ⟨2024, 1, 20⟩ (by decide) (by decide),
   C2_validate_total.2 ""⟩

/-- Claim C8: for any date of birth not strictly after the reference date
the completed-years age is non-negative, so the "Patient age cannot be
negative" error is never appended by `validate_record`, on any input. -/
theorem C8_negative_age_unreachable :
    (∀ dob today : Date, Date.pyLt today dob = false → 0 ≤ age_in_years dob today) ∧
    (∀ (raw : RawRecord) (today : Date),
      "Patient age cannot be negative" ∉ outcomeErrors (validate_record raw today)) := by
  constructor
  · exact fun dob today h => age_in_years_nonneg h
  · intro raw today
    rcases hv : validate_record raw today with _ | out
    · simp [outcomeErrors]
    · obtain ⟨hcErrs, svcErrs, hhc, hsvc⟩ := validate_record_some hv
      rw [validate_record_eq raw today hhc hsvc] at hv
      split at hv
      · obtain rfl := Option.some.inj hv
        simp [outcomeErrors]
      · obtain rfl := Option.some.inj hv
        simp only [outcomeErrors]
        intro hmem
        simp only [List.mem_append] at hmem
        rcases hmem with ((((((h | h) | h) | h) | h) | h) | h)
        · rcases healthCardErrors_cases hhc with rfl | rfl | rfl | rfl | rfl <;> simp_all
        · rcases versionCodeErrors_cases (extract_version_code raw) with
            hvc | hvc | hvc | hvc | hvc <;> rw [hvc] at h <;> simp_all
        · rcases parse_cases (extract_dob_str raw) "Date of birth" [] with
            ⟨d, hp, _⟩ | hp | hp <;> rw [hp] at h <;> simp_all
        · rcases dobRuleErrors_cases
            (parse_date_flex (extract_dob_str raw) "Date of birth" []).1 today with
            hd | hd | hd <;> rw [hd] at h <;> simp_all
        · rcases parse_cases (extract_service_str raw) "Service date" [] with
            ⟨d, hp, _⟩ | hp | hp <;> rw [hp] at h <;> simp_all
        · rcases mem_serviceRuleErrors hsvc h with he | he | he <;> exact absurd he (by decide)
        · simp only [pidErrors] at h
          revert h
          split <;> simp


/-- Witness for C8 at a concrete pair of dates. -/
theorem C8_negative_age_unreachable_witness :
    0 ≤ age_in_years ⟨1990, 5, 15⟩ ⟨2024, 1, 20⟩ :=
  C8_negative_age_unreachable.1 ⟨1990, 5, 15⟩ ⟨2024, 1, 20⟩ (by decide)

theorem healthCardErrors_luhn_mem {hc : String} {l : List String}
    (h : healthCardErrors hc = some l)
    (hm : "Health card number failed MOD 10 (Luhn) validation" ∈ l) :
    pyIsDigit hc = true ∧ hc.length = 10 := by
  unfold healthCardErrors at h
  split at h
  · obtain rfl := Option.some.inj h
    exact absurd hm (by decide)
  split at h
  · obtain rfl := Option.some.inj h
    exact absurd hm (by decide)
  split at h
  · obtain rfl := Option.some.inj h
    exact absurd hm (by decide)
  next h1 h2 h3 =>
    split at h
    · exact Option.noConfusion h
    split at h
    · obtain rfl := Option.some.inj h
      exact absurd hm (by decide)
    · refine ⟨?_, by omega⟩
      rcases hb : pyIsDigit hc with _ | _
      · rw [hb] at h2
        simp at h2
      · rfl


/-- Claim C5: per call, at most one health-card error is appended (the
cascade reports only the first applicable failure), the Luhn failure can
only be reported when the all-digit and exactly-10-characters checks both
passed, and at most one version-code error is appended. -/
theorem C5_cascade_exclusive :
    ∀ (raw : RawRecord) (today : Date) (out : Bool × List String × Option PatientRecord),
      validate_record raw today = some out →
      out.2.1.countP (fun x => x == "Health card number is missing" ||
        x == "Health card number must contain only digits" ||
        x == "Health card number must be exactly 10 digits" ||
        x == "Health card number failed MOD 10 (Luhn) validation") ≤ 1 ∧
      ("Health card number failed MOD 10 (Luhn) validation" ∈ out.2.1 →
        pyIsDigit (extract_health_card raw) = true ∧
        (extract_health_card raw).length = 10) ∧
      out.2.1.countP (fun x => x == "Version code is missing" ||
        x == "Version code must be exactly 2 characters" ||
        x == "Version code must contain only letters A-Z" ||
        x == "Version code must be uppercase letters (A-Z)") ≤ 1 := by
  intro raw today out hv
  obtain ⟨hcErrs, svcErrs, hhc, hsvc⟩ := validate_record_some hv
  rw [validate_record_eq raw today hhc hsvc] at hv
  split at hv
  · obtain rfl := Option.some.inj hv
    refine ⟨by simp, ?_, by simp⟩
    intro hm
    exact absurd hm (by simp)
  · obtain rfl := Option.some.inj hv
    refine ⟨?_, ?_, ?_⟩
    · simp only [List.countP_append]
      have h2 : (versionCodeErrors (extract_version_code raw)).countP
          (fun x => x == "Health card number is missing" ||
            x == "Health card number must contain only digits" ||
            x == "Health card number must be exactly 10 digits" ||
            x == "Health card number failed MOD 10 (Luhn) validation") = 0 := by
        rcases versionCodeErrors_cases (extract_version_code raw) with
          hc | hc | hc | hc | hc <;> rw [hc] <;> decide
      have h3 : ((parse_date_flex (extract_dob_str raw) "Date of birth" []).2).countP
          (fun x => x == "Health card number is missing" ||
            x == "Health card number must contain only digits" ||
            x == "Health card number must be exactly 10 digits" ||
            x == "Health card number failed MOD 10 (Luhn) validation") = 0 := by
        rcases parse_cases (extract_dob_str raw) "Date of birth" [] with
          ⟨d, hp, _⟩ | hp | hp <;> rw [hp] <;> rfl
      have h4 : (dobRuleErrors
          (parse_date_flex (extract_dob_str raw) "Date of birth" []).1 today).countP
          (fun x => x == "Health card number is missing" ||
            x == "Health card number must contain only digits" ||
            x == "Health card number must be exactly 10 digits" ||
            x == "Health card number failed MOD 10 (Luhn) validation") = 0 := by
        rcases dobRuleErrors_cases
          (parse_date_flex (extract_dob_str raw) "Date of birth" []).1 today with
          hd | hd | hd <;> rw [hd] <;> decide
      have h5 : ((parse_date_flex (extract_service_str raw) "Service date" []).2).countP
          (fun x => x == "Health card number is missing" ||
            x == "Health card number must contain only digits" ||
            x == "Health card number must be exactly 10 digits" ||
            x == "Health card number failed MOD 10 (Luhn) validation") = 0 := by
        rcases parse_cases (extract_service_str raw) "Service date" [] with
          ⟨d, hp, _⟩ | hp | hp <;> rw [hp] <;> rfl
      have h6 : svcErrs.countP
          (fun x => x == "Health card number is missing" ||
            x == "Health card number must contain only digits" ||
            x == "Health card number must be exactly 10 digits" ||
            x == "Health card number failed MOD 10 (Luhn) validation") = 0 := by
        rw [List.countP_eq_zero]
        intro a ha
        rcases mem_serviceRuleErrors hsvc ha with rfl | rfl | rfl <;> decide
      have h7 : (pidErrors (extract_patient_id raw)).countP
          (fun x => x == "Health card number is missing" ||
            x == "Health card number must contain only digits" ||
            x == "Health card number must be exactly 10 digits" ||
            x == "Health card number failed MOD 10 (Luhn) validation") = 0 := by
        simp only [pidErrors]
        split <;> decide
      have h1 : hcErrs.countP
          (fun x => x == "Health card number is missing" ||
            x == "Health card number must contain only digits" ||
            x == "Health card number must be exactly 10 digits" ||
            x == "Health card number failed MOD 10 (Luhn) validation") ≤ 1 := by
        rcases healthCardErrors_cases hhc with rfl | rfl | rfl | rfl | rfl <;> decide
      omega
    · intro hm
      simp only [List.mem_append] at hm
      rcases hm with ((((((h | h) | h) | h) | h) | h) | h)
      · exact healthCardErrors_luhn_mem hhc h
      · exfalso
        rcases versionCodeErrors_cases (extract_version_code raw) with
          hc | hc | hc | hc | hc <;> rw [hc] at h <;> exact absurd h (by decide)
      · exfalso
        rcases parse_cases (extract_dob_str raw) "Date of birth" [] with
          ⟨d, hp, _⟩ | hp | hp <;> rw [hp] at h <;> simp_all
      · exfalso
        rcases dobRuleErrors_cases
          (parse_date_flex (extract_dob_str raw) "Date of birth" []).1 today with
          hd | hd | hd <;> rw [hd] at h <;> exact absurd h (by decide)
      · exfalso
        rcases parse_cases (extract_service_str raw) "Service date" [] with
          ⟨d, hp, _⟩ | hp | hp <;> rw [hp] at h <;> simp_all
      · exfalso
        rcases mem_serviceRuleErrors hsvc h with he | he | he <;> exact absurd he (by decide)
      · exfalso
        simp only [pidErrors] at h
        revert h
        split <;> simp
    · simp only [List.countP_append]
      have h1 : hcErrs.countP
          (fun x => x == "Version code is missing" ||
            x == "Version code must be exactly 2 characters" ||
            x == "Version code must contain only letters A-Z" ||
            x == "Version code must be uppercase letters (A-Z)") = 0 := by
        rcases healthCardErrors_cases hhc with rfl | rfl | rfl | rfl | rfl <;> decide
      have h2 : (versionCodeErrors (extract_version_code raw)).countP
          (fun x => x == "Version code is missing" ||
            x == "Version code must be exactly 2 characters" ||
            x == "Version code must contain only letters A-Z" ||
            x == "Version code must be uppercase letters (A-Z)") ≤ 1 := by
        rcases versionCodeErrors_cases (extract_version_code raw) with
          hc | hc | hc | hc | hc <;> rw [hc] <;> decide
      have h3 : ((parse_date_flex (extract_dob_str raw) "Date of birth" []).2).countP
          (fun x => x == "Version code is missing" ||
            x == "Version code must be exactly 2 characters" ||
            x == "Version code must contain only letters A-Z" ||
            x == "Version code must be uppercase letters (A-Z)") = 0 := by
        rcases parse_cases (extract_dob_str raw) "Date of birth" [] with
          ⟨d, hp, _⟩ | hp | hp <;> rw [hp] <;> rfl
      have h4 : (dobRuleErrors
          (parse_date_flex (extract_dob_str raw) "Date of birth" []).1 today).countP
          (fun x => x == "Version code is missing" ||
            x == "Version code must be exactly 2 characters" ||
            x == "Version code must contain only letters A-Z" ||
            x == "Version code must be uppercase letters (A-Z)") = 0 := by
        rcases dobRuleErrors_cases
          (parse_date_flex (extract_dob_str raw) "Date of birth" []).1 today with
          hd | hd | hd <;> rw [hd] <;> decide
      have h5 : ((parse_date_flex (extract_service_str raw) "Service date" []).2).countP
          (fun x => x == "Version code is missing" ||
            x == "Version code must be exactly 2 characters" ||
            x == "Version code must contain only letters A-Z" ||
            x == "Version code must be uppercase letters (A-Z)") = 0 := by
        rcases parse_cases (extract_service_str raw) "Service date" [] with
          ⟨d, hp, _⟩ | hp | hp <;> rw [hp] <;> rfl
      have h6 : svcErrs.countP
          (fun x => x == "Version code is missing" ||
            x == "Version code must be exactly 2 characters" ||
            x == "Version code must contain only letters A-Z" ||
            x == "Version code must be uppercase letters (A-Z)") = 0 := by
        rw [List.countP_eq_zero]
        intro a ha
        rcases mem_serviceRuleErrors hsvc ha with rfl | rfl | rfl <;> decide
      have h7 : (pidErrors (extract_patient_id raw)).countP
          (fun x => x == "Version code is missing" ||
            x == "Version code must be exactly 2 characters" ||
            x == "Version code must contain only letters A-Z" ||
            x == "Version code must be uppercase letters (A-Z)") = 0 := by
        simp only [pidErrors]
        split <;> decide
      omega


/-- Witness for C5 at the multi-error scenario record. -/
theorem C5_cascade_exclusive_witness :
    validate_record [("Patient ID", "P001"), ("Health Card Number", "12345"),
        ("Version Code", "on"), ("Date of Birth", "2999-01-01"),
        ("Service Date", "2024-01-15")] ⟨2024, 1, 20⟩ =
      some (false, ["Health card number must be exactly 10 digits",
        "Version code must be uppercase letters (A-Z)",
        "Date of birth is in the future",
        "Service date is before date of birth"], none) ∧
    ((false, ["Health card number must be exactly 10 digits",
        "Version code must be uppercase letters (A-Z)",
        "Date of birth is in the future",
        "Service date is before date of birth"],
      (none : Option PatientRecord)).2.1.countP
        (fun x => x == "Health card number is missing" ||
          x == "Health card number must contain only digits" ||
          x == "Health card number must be exactly 10 digits" ||
          x == "Health card number failed MOD 10 (Luhn) validation") ≤ 1 ∧
     ("Health card number failed MOD 10 (Luhn) validation" ∈
        (false, ["Health card number must be exactly 10 digits",
          "Version code must be uppercase letters (A-Z)",
          "Date of birth is in the future",
          "Service date is before date of birth"],
        (none : Option PatientRecord)).2.1 →
        pyIsDigit (extract_health_card [("Patient ID", "P001"),
          ("Health Card Number", "12345"), ("Version Code", "on"),
          ("Date of Birth", "2999-01-01"), ("Service Date", "2024-01-15")]) = true ∧
        (extract_health_card [("Patient ID", "P001"), ("Health Card Number", "12345"),
          ("Version Code", "on"), ("Date of Birth", "2999-01-01"),
          ("Service Date", "2024-01-15")]).length = 10) ∧
     (false, ["Health card number must be exactly 10 digits",
        "Version code must be uppercase letters (A-Z)",
        "Date of birth is in the future",
        "Service date is before date of birth"],
      (none : Option PatientRecord)).2.1.countP
        (fun x => x == "Version code is missing" ||
          x == "Version code must be exactly 2 characters" ||
          x == "Version code must contain only letters A-Z" ||
          x == "Version code must be uppercase letters (A-Z)") ≤ 1) :=
  ⟨by decide,
   C5_cascade_exclusive [("Patient ID", "P001"), ("Health Card Number", "12345"),
     ("Version Code", "on"), ("Date of Birth", "2999-01-01"),
     ("Service Date", "2024-01-15")] ⟨2024, 1, 20⟩
     (false, ["Health card number must be exactly 10 digits",
       "Version code must be uppercase letters (A-Z)",
       "Date of birth is in the future",
       "Service date is before date of birth"], none) (by decide)⟩


/-- Claim C4 counterexample: for the scenario record (health card "12345",
version "on", date of birth "2999-01-01", other fields valid) the rejection
carries four errors, not the claimed three: a service date that is not
after `today` is necessarily before the future date of birth, so
"Service date is before date of birth" is also appended. -/
theorem C4_counterexample :
    outcomeErrors (validate_record [("Patient ID", "P001"),
        ("Health Card Number", "12345"), ("Version Code", "on"),
        ("Date of Birth", "2999-01-01"), ("Service Date", "2024-01-15")]
        ⟨2024, 1, 20⟩) =
      ["Health card number must be exactly 10 digits",
       "Version code must be uppercase letters (A-Z)",
       "Date of birth is in the future",
       "Service date is before date of birth"] ∧
    outcomeErrors (validate_record [("Patient ID", "P001"),
        ("Health Card Number", "12345"), ("Version Code", "on"),
        ("Date of Birth", "2999-01-01"), ("Service Date", "2024-01-15")]
        ⟨2024, 1, 20⟩) ≠
      ["Health card number must be exactly 10 digits",
       "Version code must be uppercase letters (A-Z)",
       "Date of birth is in the future"] :=
  ⟨by decide, by decide⟩

/-- Claim C4 amended: the error list equals the concatenation of the
per-rule error blocks in the fixed evaluation order (health card number,
version code, date of birth, service date, identifier presence), and in the
scenario the rejection lists the length error, then the uppercase error,
then the "in the future" error, in that order, followed by the necessarily
present "Service date is before date of birth" error. -/
theorem C4_error_order :
    (∀ (raw : RawRecord) (today : Date) (out : Bool × List String × Option PatientRecord),
      validate_record raw today = some out →
      out.2.1 = (healthCardErrors (extract_health_card raw)).getD [] ++
        versionCodeErrors (extract_version_code raw) ++
        (parse_date_flex (extract_dob_str raw) "Date of birth" []).2 ++
        dobRuleErrors (parse_date_flex (extract_dob_str raw) "Date of birth" []).1 today ++
        (parse_date_flex (extract_service_str raw) "Service date" []).2 ++
        (serviceRuleErrors today
          (parse_date_flex (extract_dob_str raw) "Date of birth" []).1
          (parse_date_flex (extract_service_str raw) "Service date" []).1).getD [] ++
        pidErrors (extract_patient_id raw)) ∧
    outcomeErrors (validate_record [("Patient ID", "P001"),
        ("Health Card Number", "12345"), ("Version Code", "on"),
        ("Date of Birth", "2999-01-01"), ("Service Date", "2024-01-15")]
        ⟨2024, 1, 20⟩) =
      ["Health card number must be exactly 10 digits",
       "Version code must be uppercase letters (A-Z)",
       "Date of birth is in the future",
       "Service date is before date of birth"] := by
  constructor
  · intro raw today out hv
    obtain ⟨hcErrs, svcErrs, hhc, hsvc⟩ := validate_record_some hv
    rw [validate_record_eq raw today hhc hsvc] at hv
    rw [hhc, hsvc]
    simp only [Option.getD_some]
    split at hv
    next hE =>
      obtain rfl := Option.some.inj hv
      exact hE.symm
    next hE =>
      obtain rfl := Option.some.inj hv
      rfl
  · decide


/-- Witness for the amended C4 at the scenario record. -/
theorem C4_error_order_witness :
    validate_record [("Patient ID", "P001"), ("Health Card Number", "12345"),
      ("Version Code", "on"), ("Date of Birth", "2999-01-01"),
      ("Service Date", "2024-01-15")] ⟨2024, 1, 20⟩ = some (false, ["Health card number must be exactly 10 digits",
      "Version code must be uppercase letters (A-Z)",
      "Date of birth is in the future",
      "Service date is before date of birth"], (none : Option PatientRecord)) ∧
    ((false, ["Health card number must be exactly 10 digits",
      "Version code must be uppercase letters (A-Z)",
      "Date of birth is in the future",
      "Service date is before date of birth"], (none : Option PatientRecord))).2.1 =
      (healthCardErrors (extract_health_card [("Patient ID", "P001"), ("Health Card Number", "12345"),
      ("Version Code", "on"), ("Date of Birth", "2999-01-01"),
      ("Service Date", "2024-01-15")])).getD [] ++
      versionCodeErrors (extract_version_code [("Patient ID", "P001"), ("Health Card Number", "12345"),
      ("Version Code", "on"), ("Date of Birth", "2999-01-01"),
      ("Service Date", "2024-01-15")]) ++
      (parse_date_flex (extract_dob_str [("Patient ID", "P001"), ("Health Card Number", "12345"),
      ("Version Code", "on"), ("Date of Birth", "2999-01-01"),
      ("Service Date", "2024-01-15")]) "Date of birth" []).2 ++
      dobRuleErrors (parse_date_flex (extract_dob_str [("Patient ID", "P001"), ("Health Card Number", "12345"),
      ("Version Code", "on"), ("Date of Birth", "2999-01-01"),
      ("Service Date", "2024-01-15")]) "Date of birth" []).1 ⟨2024, 1, 20⟩ ++
      (parse_date_flex (extract_service_str [("Patient ID", "P001"), ("Health Card Number", "12345"),
      ("Version Code", "on"), ("Date of Birth", "2999-01-01"),
      ("Service Date", "2024-01-15")]) "Service date" []).2 ++
      (serviceRuleErrors ⟨2024, 1, 20⟩
        (parse_date_flex (extract_dob_str [("Patient ID", "P001"), ("Health Card Number", "12345"),
      ("Version Code", "on"), ("Date of Birth", "2999-01-01"),
      ("Service Date", "2024-01-15")]) "Date of birth" []).1
        (parse_date_flex (extract_service_str [("Patient ID", "P001"), ("Health Card Number", "12345"),
      ("Version Code", "on"), ("Date of Birth", "2999-01-01"),
      ("Service Date", "2024-01-15")]) "Service date" []).1).getD [] ++
      pidErrors (extract_patient_id [("Patient ID", "P001"), ("Health Card Number", "12345"),
      ("Version Code", "on"), ("Date of Birth", "2999-01-01"),
      ("Service Date", "2024-01-15")]) :=
  ⟨by decide,
   C4_error_order.1 [("Patient ID", "P001"), ("Health Card Number", "12345"),
      ("Version Code", "on"), ("Date of Birth", "2999-01-01"),
      ("Service Date", "2024-01-15")] ⟨2024, 1, 20⟩ (false, ["Health card number must be exactly 10 digits",
      "Version code must be uppercase letters (A-Z)",
      "Date of birth is in the future",
      "Service date is before date of birth"], (none : Option PatientRecord)) (by decide)⟩


theorem validate_errors_concat {raw : RawRecord} {today : Date}
    {out : Bool × List String × Option PatientRecord}
    (hv : validate_record raw today = some out) :
    out.2.1 = (healthCardErrors (extract_health_card raw)).getD [] ++
      versionCodeErrors (extract_version_code raw) ++
      (parse_date_flex (extract_dob_str raw) "Date of birth" []).2 ++
      dobRuleErrors (parse_date_flex (extract_dob_str raw) "Date of birth" []).1 today ++
      (parse_date_flex (extract_service_str raw) "Service date" []).2 ++
      (serviceRuleErrors today
        (parse_date_flex (extract_dob_str raw) "Date of birth" []).1
        (parse_date_flex (extract_service_str raw) "Service date" []).1).getD [] ++
      pidErrors (extract_patient_id raw) := by
  obtain ⟨hcErrs, svcErrs, hhc, hsvc⟩ := validate_record_some hv
  rw [validate_record_eq raw today hhc hsvc] at hv
  rw [hhc, hsvc]
  simp only [Option.getD_some]
  split at hv
  next hE =>
    obtain rfl := Option.some.inj hv
    exact hE.symm
  next hE =>
    obtain rfl := Option.some.inj hv
    rfl

theorem parse_fst_some_valid {s f : String} {es : List String} {d : Date}
    (h : (parse_date_flex s f es).1 = some d) : isValidDate d = true := by
  rcases parse_cases s f es with ⟨d', hp, hval⟩ | hp | hp <;> rw [hp] at h <;> simp_all

/-- Claim C7: for a record whose service date parses and is not after the
reference date, the "more than 6 months in the past" error is appended
exactly when the service date is strictly earlier than `today` minus 183
days, i.e. when its ordinal is more than 183 below today's. -/
theorem C7_six_month_boundary :
    ∀ (raw : RawRecord) (today sd : Date),
      isValidDate today = true → 183 < today.toOrdinal →
      (parse_date_flex (extract_service_str raw) "Service date" []).1 = some sd →
      Date.pyLt today sd = false →
      ("Service date is more than 6 months in the past" ∈
          outcomeErrors (validate_record raw today) ↔
        sd.toOrdinal + 183 < today.toOrdinal) := by
  intro raw today sd hvt h183 hsd hnotfut
  have hmax := toOrdinal_le_max hvt
  have hn1 : 1 ≤ today.toOrdinal - 183 := by omega
  have hn2 : today.toOrdinal - 183 ≤ maxOrdinal := by
    simp only [maxOrdinal] at hmax ⊢
    omega
  obtain ⟨hsixvalid, hsixord⟩ := fromOrdinal_correct (today.toOrdinal - 183) hn1 hn2
  have hsub : Date.subDays today 183 = some (fromOrdinal (today.toOrdinal - 183)) := by
    have harg : ((today.toOrdinal : Int) - ((183 : Nat) : Int)).toNat =
        today.toOrdinal - 183 := by omega
    have hmax2 : today.toOrdinal ≤ 3652059 := by
      simpa only [maxOrdinal] using hmax
    simp only [Date.subDays, maxOrdinal]
    rw [harg, if_pos (by omega)]
  have hsdvalid := parse_fst_some_valid hsd
  have hbridge : Date.pyLt sd (fromOrdinal (today.toOrdinal - 183)) = true ↔
      sd.toOrdinal + 183 < today.toOrdinal := by
    rw [pyLt_iff_toOrdinal hsdvalid hsixvalid, hsixord]
    omega
  obtain ⟨out, hv⟩ := Option.isSome_iff_exists.mp (validate_record_isSome raw today hvt h183)
  rw [hv]
  simp only [outcomeErrors]
  rw [validate_errors_concat hv]
  obtain ⟨hcErrs, svcErrs, hhc, hsvc⟩ := validate_record_some hv
  rw [hhc]
  simp only [Option.getD_some]
  rw [hsd] at hsvc ⊢
  have hsvc_eq : serviceRuleErrors today
      (parse_date_flex (extract_dob_str raw) "Date of birth" []).1 (some sd) =
      some ((if Date.pyLt today sd = true then ["Service date is in the future"] else []) ++
        (match (parse_date_flex (extract_dob_str raw) "Date of birth" []).1 with
         | some db => if Date.pyLt sd db = true then
             ["Service date is before date of birth"] else []
         | none => []) ++
        (if Date.pyLt sd (fromOrdinal (today.toOrdinal - 183)) = true then
          ["Service date is more than 6 months in the past"] else [])) := by
    simp only [serviceRuleErrors, hsub]
  rw [hsvc_eq]
  simp only [Option.getD_some, List.mem_append]
  rw [← hbridge]
  constructor
  · intro h
    rcases h with ((((((h | h) | h) | h) | h) | (h | h) | h) | h)
    · exfalso
      rcases healthCardErrors_cases hhc with rfl | rfl | rfl | rfl | rfl <;>
        exact absurd h (by decide)
    · exfalso
      rcases versionCodeErrors_cases (extract_version_code raw) with
        hc | hc | hc | hc | hc <;> rw [hc] at h <;> exact absurd h (by decide)
    · exfalso
      rcases parse_cases (extract_dob_str raw) "Date of birth" [] with
        ⟨d, hp, _⟩ | hp | hp <;> rw [hp] at h <;> simp_all
    · exfalso
      rcases dobRuleErrors_cases
        (parse_date_flex (extract_dob_str raw) "Date of birth" []).1 today with
        hd | hd | hd <;> rw [hd] at h <;> exact absurd h (by decide)
    · exfalso
      rcases parse_cases (extract_service_str raw) "Service date" [] with
        ⟨d, hp, _⟩ | hp | hp <;> rw [hp] at h <;> simp_all
    · exfalso
      revert h
      split <;> simp_all
    · exfalso
      revert h
      rcases (parse_date_flex (extract_dob_str raw) "Date of birth" []).1 with _ | db
      · simp
      · split <;> simp_all
    · revert h
      split
      next hcond => intro _ ; exact hcond
      next => simp
    · exfalso
      simp only [pidErrors] at h
      revert h
      split <;> simp
  · intro h
    left
    right
    right
    rw [if_pos h]
    exact List.mem_singleton_self _


/-- Witness for C7 at both sides of the 183-day boundary: a service date
exactly 183 days before 2024-01-20 (namely 2023-07-21) and one 184 days
before (2023-07-20). -/
theorem C7_six_month_boundary_witness :
    ("Service date is more than 6 months in the past" ∈
        outcomeErrors (validate_record [("Service Date", "2023-07-21")] ⟨2024, 1, 20⟩) ↔
      (Date.mk 2023 7 21).toOrdinal + 183 < (Date.mk 2024 1 20).toOrdinal) ∧
    ("Service date is more than 6 months in the past" ∈
        outcomeErrors (validate_record [("Service Date", "2023-07-20")] ⟨2024, 1, 20⟩) ↔
      (Date.mk 2023 7 20).toOrdinal + 183 < (Date.mk 2024 1 20).toOrdinal) :=
  ⟨C7_six_month_boundary [("Service Date", "2023-07-21")] ⟨2024, 1, 20⟩ ⟨2023, 7, 21⟩
     (by decide) (by decide) (by decide) (by decide),
   C7_six_month_boundary [("Service Date", "2023-07-20")] ⟨2024, 1, 20⟩ ⟨2023, 7, 20⟩
     (by decide) (by decide) (by decide) (by decide)⟩

theorem healthCardErrors_nil {hc : String} (h : healthCardErrors hc = some []) :
    hc ≠ "" ∧ pyIsDigit hc = true ∧ hc.length = 10 ∧ luhn_check hc = some true := by
  unfold healthCardErrors at h
  split at h
  · exact absurd (Option.some.inj h) (by decide)
  split at h
  · exact absurd (Option.some.inj h) (by decide)
  split at h
  · exact absurd (Option.some.inj h) (by decide)
  next h1 h2 h3 =>
    split at h
    next heq => exact Option.noConfusion h
    next b heq =>
      split at h
      next hb =>
        refine ⟨h1, ?_, by omega, ?_⟩
        · rcases hd : pyIsDigit hc with _ | _
          · rw [hd] at h2
            simp at h2
          · rfl
        · rw [heq, hb]
      next hb =>
        exact absurd (Option.some.inj h) (by decide)

theorem versionCodeErrors_nil {vc : String} (h : versionCodeErrors vc = []) :
    vc ≠ "" ∧ vc.length = 2 ∧ pyIsAlpha vc = true ∧ pyIsUpper vc = true := by
  unfold versionCodeErrors at h
  split at h
  · exact absurd h (by decide)
  split at h
  · exact absurd h (by decide)
  split at h
  · exact absurd h (by decide)
  split at h
  · exact absurd h (by decide)
  next h1 h2 h3 h4 =>
    refine ⟨h1, by omega, ?_, ?_⟩
    · rcases hd : pyIsAlpha vc with _ | _
      · rw [hd] at h3
        simp at h3
      · rfl
    · rcases hd : pyIsUpper vc with _ | _
      · rw [hd] at h4
        simp at h4
      · rfl

theorem parse_nil {s f : String} (h : (parse_date_flex s f []).2 = []) :
    ∃ d, (parse_date_flex s f []).1 = some d ∧ isValidDate d = true := by
  rcases parse_cases s f [] with ⟨d, hp, hval⟩ | hp | hp <;> rw [hp] at h ⊢
  · exact ⟨d, rfl, hval⟩
  · simp at h
  · simp at h

theorem dobRuleErrors_nil {dob : Option Date} {today db : Date} (hdob : dob = some db)
    (h : dobRuleErrors dob today = []) : Date.pyLt today db = false := by
  subst hdob
  simp only [dobRuleErrors] at h
  split at h
  next hfut => exact absurd h (by decide)
  next hfut => exact Bool.eq_false_iff.mpr hfut

theorem serviceRuleErrors_nil {today : Date} {dob : Option Date} {sd : Date}
    (h : serviceRuleErrors today dob (some sd) = some []) :
    Date.pyLt today sd = false := by
  simp only [serviceRuleErrors] at h
  rcases hsub : Date.subDays today 183 with _ | six <;> rw [hsub] at h
  · exact Option.noConfusion h
  · have hnil := Option.some.inj h
    simp only [List.append_eq_nil] at hnil
    obtain ⟨⟨hF, _⟩, _⟩ := hnil
    revert hF
    split
    next => intro hF; exact absurd hF (by decide)
    next hc => intro _; exact Bool.eq_false_iff.mpr hc

theorem pidErrors_nil {pid : String} (h : pidErrors pid = []) : pid ≠ "" := by
  simp only [pidErrors] at h
  split at h
  · exact absurd h (by decide)
  next hc => exact hc


/-- Claim C6: `validate_record` accepts exactly when the collected error
list is empty after all rules have run, and every accepted outcome carries
a `PatientRecord` in which every rule held: a 10-digit Luhn-valid health
card, a 2-letter uppercase version code, both dates parsed and reformatted
as ISO strings with neither after `today`, and a non-empty identifier taken
unchanged from extraction. -/
theorem C6_accept_invariants :
    ∀ (raw : RawRecord) (today : Date) (out : Bool × List String × Option PatientRecord),
      validate_record raw today = some out →
      (out.1 = true ↔ out.2.1 = []) ∧
      (out.1 = true →
        ∃ rec db sd,
          out.2.2 = some rec ∧
          rec.PatientID = extract_patient_id raw ∧ rec.PatientID ≠ "" ∧
          rec.HealthCardNumber = extract_health_card raw ∧
          rec.HealthCardNumber.length = 10 ∧
          pyIsDigit rec.HealthCardNumber = true ∧
          luhn_check rec.HealthCardNumber = some true ∧
          rec.VersionCode = extract_version_code raw ∧
          rec.VersionCode.length = 2 ∧
          pyIsAlpha rec.VersionCode = true ∧ pyIsUpper rec.VersionCode = true ∧
          (parse_date_flex (extract_dob_str raw) "Date of birth" []).1 = some db ∧
          (parse_date_flex (extract_service_str raw) "Service date" []).1 = some sd ∧
          rec.DateOfBirth = db.isoformat ∧ rec.ServiceDate = sd.isoformat ∧
          Date.pyLt today db = false ∧ Date.pyLt today sd = false) := by
  intro raw today out hv
  obtain ⟨hcErrs, svcErrs, hhc, hsvc⟩ := validate_record_some hv
  rw [validate_record_eq raw today hhc hsvc] at hv
  split at hv
  next hE =>
    obtain rfl := Option.some.inj hv
    simp only [List.append_eq_nil] at hE
    obtain ⟨⟨⟨⟨⟨⟨e1, e2⟩, e3⟩, e4⟩, e5⟩, e6⟩, e7⟩ := hE
    subst e1
    obtain ⟨hcne, hcdig, hclen, hcluhn⟩ := healthCardErrors_nil hhc
    obtain ⟨_, hvclen, hvcalpha, hvcupper⟩ := versionCodeErrors_nil e2
    obtain ⟨db, hdb, _⟩ := parse_nil e3
    obtain ⟨sd, hsd, _⟩ := parse_nil e5
    have hdobfut := dobRuleErrors_nil hdb e4
    subst e6
    rw [hsd] at hsvc
    have hsvcfut := serviceRuleErrors_nil hsvc
    have hpid := pidErrors_nil e7
    refine ⟨by simp, fun _ => ⟨_, db, sd, rfl, rfl, hpid, rfl, hclen, hcdig, hcluhn,
      rfl, hvclen, hvcalpha, hvcupper, hdb, hsd, ?_, ?_, hdobfut, hsvcfut⟩⟩
    · rw [hdb]
    · rw [hsd]
  next hE =>
    obtain rfl := Option.some.inj hv
    refine ⟨?_, by simp⟩
    constructor
    · intro hcon
      exact absurd hcon (by simp)
    · intro hc
      exact absurd hc hE


/-- Witness for C6 at an accepted record (health card 1234567897 passes the
Luhn check). -/
theorem C6_accept_invariants_witness :
    ((((true, ([] : List String),
      some (PatientRecord.mk "P001" "1234567897" "ON" "1990-05-15" "2024-01-15")) :
      Bool × List String × Option PatientRecord)).1 = true ↔ (((true, ([] : List String),
      some (PatientRecord.mk "P001" "1234567897" "ON" "1990-05-15" "2024-01-15")) :
      Bool × List String × Option PatientRecord)).2.1 = []) ∧
    ((((true, ([] : List String),
      some (PatientRecord.mk "P001" "1234567897" "ON" "1990-05-15" "2024-01-15")) :
      Bool × List String × Option PatientRecord)).1 = true →
      ∃ rec db sd,
        (((true, ([] : List String),
      some (PatientRecord.mk "P001" "1234567897" "ON" "1990-05-15" "2024-01-15")) :
      Bool × List String × Option PatientRecord)).2.2 = some rec ∧
        rec.PatientID = extract_patient_id [("Patient ID", "P001"), ("Health Card Number", "1234567897"),
      ("Version Code", "ON"), ("Date of Birth", "1990-05-15"),
      ("Service Date", "2024-01-15")] ∧ rec.PatientID ≠ "" ∧
        rec.HealthCardNumber = extract_health_card [("Patient ID", "P001"), ("Health Card Number", "1234567897"),
      ("Version Code", "ON"), ("Date of Birth", "1990-05-15"),
      ("Service Date", "2024-01-15")] ∧
        rec.HealthCardNumber.length = 10 ∧
        pyIsDigit rec.HealthCardNumber = true ∧
        luhn_check rec.HealthCardNumber = some true ∧
        rec.VersionCode = extract_version_code [("Patient ID", "P001"), ("Health Card Number", "1234567897"),
      ("Version Code", "ON"), ("Date of Birth", "1990-05-15"),
      ("Service Date", "2024-01-15")] ∧
        rec.VersionCode.length = 2 ∧
        pyIsAlpha rec.VersionCode = true ∧ pyIsUpper rec.VersionCode = true ∧
        (parse_date_flex (extract_dob_str [("Patient ID", "P001"), ("Health Card Number", "1234567897"),
      ("Version Code", "ON"), ("Date of Birth", "1990-05-15"),
      ("Service Date", "2024-01-15")]) "Date of birth" []).1 = some db ∧
        (parse_date_flex (extract_service_str [("Patient ID", "P001"), ("Health Card Number", "1234567897"),
      ("Version Code", "ON"), ("Date of Birth", "1990-05-15"),
      ("Service Date", "2024-01-15")]) "Service date" []).1 = some sd ∧
        rec.DateOfBirth = db.isoformat ∧ rec.ServiceDate = sd.isoformat ∧
        Date.pyLt ⟨2024, 1, 20⟩ db = false ∧ Date.pyLt ⟨2024, 1, 20⟩ sd = false) :=
  C6_accept_invariants [("Patient ID", "P001"), ("Health Card Number", "1234567897"),
      ("Version Code", "ON"), ("Date of Birth", "1990-05-15"),
      ("Service Date", "2024-01-15")] ⟨2024, 1, 20⟩ ((true, ([] : List String),
      some (PatientRecord.mk "P001" "1234567897" "ON" "1990-05-15" "2024-01-15")) :
      Bool × List String × Option PatientRecord) (by decide)


/-- Claim C10: the `main` loop validates records in input order and
partitions the outcomes; whenever the loop completes, the accepted and
rejected sequences are the order-preserving projections of the input and
their lengths add up to the input length. -/
theorem C10_batch_partition :
    ∀ (raws : List RawRecord) (today : Date)
      (out : List PatientRecord × List (String × List String)),
      main_partition raws today = some out →
      out.1 = raws.filterMap (fun r => acceptedOf (validate_record r today)) ∧
      out.2 = raws.filterMap (fun r => rejectedOf r (validate_record r today)) ∧
      out.1.length + out.2.length = raws.length := by
  intro raws today
  induction raws with
  | nil =>
    intro out h
    obtain rfl : (([], []) : List PatientRecord × List (String × List String)) = out :=
      Option.some.inj h
    simp
  | cons raw rest ih =>
    intro out h
    simp only [main_partition] at h
    rcases hv : validate_record raw today with _ | ⟨isv, errs, norm⟩ <;> rw [hv] at h
    · exact Option.noConfusion h
    · rcases hrec : main_partition rest today with _ | ⟨vs, es⟩ <;> rw [hrec] at h
      · exact Option.noConfusion h
      · obtain ⟨ih1, ih2, ih3⟩ := ih (vs, es) hrec
        dsimp only at ih1 ih2 ih3
        have h2 : (if isv = true ∧ norm.isSome = true then
            some (norm.getD ⟨"", "", "", "", ""⟩ :: vs, es)
          else some (vs,
            (pyStrip (pyOr (rawGet raw "Patient ID") (pyOr (rawGet raw "PatientID") "")),
              errs) :: es)) = some out := h
        clear h
        split at h2
        next hacc =>
          obtain ⟨hisv, hnorm⟩ := hacc
          obtain ⟨rec, hrec2⟩ := Option.isSome_iff_exists.mp hnorm
          subst hisv
          subst hrec2
          obtain rfl := Option.some.inj h2
          have hacc_some : acceptedOf (some (true, errs, some rec)) = some rec := rfl
          have hrej_none : rejectedOf raw (some (true, errs, some rec)) = none := rfl
          simp only [List.filterMap_cons, hv, hacc_some, hrej_none, Option.getD_some]
          refine ⟨by rw [ih1], by rw [ih2], ?_⟩
          simp only [List.length_cons]
          omega
        next hrej =>
          obtain rfl := Option.some.inj h2
          have hacc_none : acceptedOf (some (isv, errs, norm)) = none := by
            rcases isv with _ | _ <;> rcases norm with _ | rec <;>
              simp_all [acceptedOf]
          have hrej_some : rejectedOf raw (some (isv, errs, norm)) =
              some (extract_patient_id raw, errs) := by
            rcases isv with _ | _ <;> rcases norm with _ | rec <;>
              simp_all [rejectedOf]
          simp only [List.filterMap_cons, hv, hacc_none, hrej_some]
          refine ⟨by rw [ih1], ?_, ?_⟩
          · rw [ih2]
            rfl
          · simp only [List.length_cons]
            omega


/-- Witness for C10 at a two-record batch (one accepted, one rejected). -/
theorem C10_batch_partition_witness :
    ((([PatientRecord.mk "P001" "1234567897" "ON" "1990-05-15" "2024-01-15"],
      [("", ["Health card number is missing", "Version code is missing",
        "Date of birth is empty", "Service date is empty", "Patient ID is missing"])]) :
      List PatientRecord × List (String × List String))).1 =
      ([[("Patient ID", "P001"), ("Health Card Number", "1234567897"),
       ("Version Code", "ON"), ("Date of Birth", "1990-05-15"),
       ("Service Date", "2024-01-15")], []] : List RawRecord).filterMap
        (fun r => acceptedOf (validate_record r ⟨2024, 1, 20⟩)) ∧
    ((([PatientRecord.mk "P001" "1234567897" "ON" "1990-05-15" "2024-01-15"],
      [("", ["Health card number is missing", "Version code is missing",
        "Date of birth is empty", "Service date is empty", "Patient ID is missing"])]) :
      List PatientRecord × List (String × List String))).2 =
      ([[("Patient ID", "P001"), ("Health Card Number", "1234567897"),
       ("Version Code", "ON"), ("Date of Birth", "1990-05-15"),
       ("Service Date", "2024-01-15")], []] : List RawRecord).filterMap
        (fun r => rejectedOf r (validate_record r ⟨2024, 1, 20⟩)) ∧
    ((([PatientRecord.mk "P001" "1234567897" "ON" "1990-05-15" "2024-01-15"],
      [("", ["Health card number is missing", "Version code is missing",
        "Date of birth is empty", "Service date is empty", "Patient ID is missing"])]) :
      List PatientRecord × List (String × List String))).1.length + ((([PatientRecord.mk "P001" "1234567897" "ON" "1990-05-15" "2024-01-15"],
      [("", ["Health card number is missing", "Version code is missing",
        "Date of birth is empty", "Service date is empty", "Patient ID is missing"])]) :
      List PatientRecord × List (String × List String))).2.length =
      ([[("Patient ID", "P001"), ("Health Card Number", "1234567897"),
       ("Version Code", "ON"), ("Date of Birth", "1990-05-15"),
       ("Service Date", "2024-01-15")], []] : List RawRecord).length :=
  C10_batch_partition [[("Patient ID", "P001"), ("Health Card Number", "1234567897"),
       ("Version Code", "ON"), ("Date of Birth", "1990-05-15"),
       ("Service Date", "2024-01-15")], []] ⟨2024, 1, 20⟩ (([PatientRecord.mk "P001" "1234567897" "ON" "1990-05-15" "2024-01-15"],
      [("", ["Health card number is missing", "Version code is missing",
        "Date of birth is empty", "Service date is empty", "Patient ID is missing"])]) :
      List PatientRecord × List (String × List String)) (by decide)

end HealthSystem
